import Mathlib

/-!
Verification of the Lynkr request-routing and format-conversion engine.

This file gives a shallow embedding, in Lean 4, of the JavaScript source of
the Lynkr proxy (clients/databricks.js, clients/responses-format.js,
routing/complexity-analyzer.js, the memory extraction module and the memory
FTS search module), and proves or refutes the frozen specification claims
about it.  Strings are modelled as `List Char`; the JavaScript values the
translated code inspects are modelled by small flat value types together
with a JavaScript truthiness predicate, so that idioms such as `a || b`
and `if (x)` can be translated faithfully.
-/

/-- Strings of the embedded JavaScript program, as lists of characters. -/
abbrev Str := List Char

/-- Convert a Lean string literal to the embedded string type. -/
def str (s : String) : Str := s.toList

/-- A primitive JavaScript value (the only shapes the translated control
flow ever compares or tests for truthiness). -/
inductive JsPrim where
  | jbool (b : Bool) : JsPrim
  | jnum (n : Int) : JsPrim
  | jstring (s : Str) : JsPrim
deriving DecidableEq, Repr

/-- JavaScript truthiness of a primitive value. -/
def jsPrimTruthy : JsPrim → Bool
  | .jbool b => b
  | .jnum n => n != 0
  | .jstring s => !s.isEmpty

/-- Truthiness of an optional string field (`undefined` and `""` are
falsy). -/
def strTruthy : Option Str → Bool
  | some s => !s.isEmpty
  | none => false

/-- JavaScript `String.prototype.includes`: substring containment. -/
def strIncludes : Str → Str → Bool
  | hay, needle =>
    needle.isPrefixOf hay ||
      match hay with
      | [] => false
      | _ :: rest => strIncludes rest needle

/-! ### clients/responses-format.js - `mapFinishReason`

```js
function mapFinishReason(finishReason) {
  const mapping = {
    "stop": "end_turn",
    "length": "max_tokens",
    "tool_calls": "tool_use",
    "content_filter": "content_filter"
  };
  return mapping[finishReason] || "end_turn";
}
```

`mapping` is an object literal, so `mapping[k]` follows the ECMAScript
property-lookup semantics: if `k` is not an own property, the lookup
continues on `Object.prototype`, whose properties (`toString`,
`constructor`, ...) are functions or objects and therefore truthy. -/

/-- Result of a JavaScript property lookup on the object literal `mapping`:
an own (string-valued) data property, a property inherited from
`Object.prototype` (a function or object, hence truthy and not a string),
or `undefined`. -/
inductive JsProp where
  | strVal (s : Str) : JsProp
  | inherited : JsProp
  | jsUndefined : JsProp
deriving DecidableEq, Repr

/-- Property names that every plain object literal inherits from
`Object.prototype` in ECMAScript. -/
def objectProtoProps : List Str :=
  [str "constructor", str "hasOwnProperty", str "isPrototypeOf",
   str "propertyIsEnumerable", str "toLocaleString", str "toString",
   str "valueOf", str "__proto__", str "__defineGetter__",
   str "__defineSetter__", str "__lookupGetter__", str "__lookupSetter__"]

/-- Lookup `mapping[finishReason]` for the object literal in
`mapFinishReason`, including the `Object.prototype` chain. -/
def finishReasonLookup (k : Str) : JsProp :=
  if k = str "stop" then .strVal (str "end_turn")
  else if k = str "length" then .strVal (str "max_tokens")
  else if k = str "tool_calls" then .strVal (str "tool_use")
  else if k = str "content_filter" then .strVal (str "content_filter")
  else if k ∈ objectProtoProps then .inherited
  else .jsUndefined

/-- Truthiness of a property-lookup result (inherited functions and objects
are truthy). -/
def jsPropTruthy : JsProp → Bool
  | .strVal s => !s.isEmpty
  | .inherited => true
  | .jsUndefined => false

/-- Embedding of `mapFinishReason`: `mapping[finishReason] || "end_turn"`. -/
def mapFinishReason (finishReason : Str) : JsProp :=
  let v := finishReasonLookup finishReason
  if jsPropTruthy v then v else .strVal (str "end_turn")

/-! ### clients/databricks.js - `performJsonRequest`

The function branches on `body.stream === true`: streaming requests issue a
single `fetch` with no retry wrapper (errors from the attempt propagate to
the caller), and non-streaming requests run inside `withRetry` with
`config.apiRetry?.maxRetries || 3`, `|| 1000`, `|| 30000`. -/

/-- The `apiRetry` section of the configuration; each field may be unset. -/
structure ApiRetryCfg where
  maxRetries : Option Nat
  initialDelay : Option Nat
  maxDelay : Option Nat
deriving DecidableEq, Repr

/-- JavaScript `x || d` for an optional numeric config value: both an
absent value and `0` fall back to the default. -/
def jsOrNum (v : Option Nat) (d : Nat) : Nat :=
  match v with
  | some n => if n = 0 then d else n
  | none => d

/-- The request body as far as `performJsonRequest` inspects it: only the
`stream` field matters for control flow. -/
structure ReqBody where
  stream : Option JsPrim
deriving DecidableEq, Repr

/-- The strict comparison `body.stream === true`. -/
def isStreamingBody (b : ReqBody) : Bool :=
  b.stream == some (.jbool true)

/-- Control-flow plan chosen by `performJsonRequest`: either the single
un-retried streaming fetch, or the non-streaming path wrapped in
`withRetry` with the given options. -/
inductive RequestPlan where
  | streamSingle : RequestPlan
  | retried (maxRetries initialDelay maxDelay : Nat) : RequestPlan
deriving DecidableEq, Repr

/-- Embedding of the dispatch decision of `performJsonRequest`. -/
def performJsonRequestPlan (apiRetry : Option ApiRetryCfg) (b : ReqBody) :
    RequestPlan :=
  if isStreamingBody b then .streamSingle
  else
    .retried
      (jsOrNum (apiRetry.bind (·.maxRetries)) 3)
      (jsOrNum (apiRetry.bind (·.initialDelay)) 1000)
      (jsOrNum (apiRetry.bind (·.maxDelay)) 30000)

/-- Outcome of one upstream POST attempt.  `err` models a rejected fetch
promise (transport error); `resp` a settled HTTP response. -/
inductive AttemptOutcome where
  | resp (ok : Bool) (status : Nat) : AttemptOutcome
  | err (message : Str) : AttemptOutcome
deriving DecidableEq, Repr

/-- Attempt loop of `withRetry`: `remaining` further attempts are allowed
after the current one; the pair returned is the surfaced outcome and the
number of POSTs issued. -/
def withRetryGo (attempts : Nat → AttemptOutcome)
    (isFailure : AttemptOutcome → Bool) (i : Nat) :
    Nat → AttemptOutcome × Nat
  | 0 => (attempts i, i + 1)
  | r + 1 =>
    let o := attempts i
    if isFailure o then withRetryGo attempts isFailure (i + 1) r
    else (o, i + 1)

/-- Modelled from the spec: `withRetry` (clients/retry.js is not under
src/) performs up to `maxRetries` attempts, stopping at the first
non-failing one (section 4.1); the delay schedule does not affect which
attempts run, so it is not modelled. -/
def withRetryRun (maxRetries : Nat) (attempts : Nat → AttemptOutcome)
    (isFailure : AttemptOutcome → Bool) : AttemptOutcome × Nat :=
  withRetryGo attempts isFailure 0 (maxRetries - 1)

/-- Execution of `performJsonRequest` over a stream of attempt outcomes:
the streaming branch issues exactly one POST, whose outcome (success or
error) is returned to the caller unwrapped; the non-streaming branch runs
the attempts under `withRetry`. -/
def performJsonRequestRun (apiRetry : Option ApiRetryCfg) (b : ReqBody)
    (attempts : Nat → AttemptOutcome) (isFailure : AttemptOutcome → Bool) :
    AttemptOutcome × Nat :=
  match performJsonRequestPlan apiRetry b with
  | .streamSingle => (attempts 0, 1)
  | .retried m _ _ => withRetryRun m attempts isFailure

/-! ### clients/databricks.js - consecutive same-role deduplication

Both `invokeOllama` (lines 228-251) and `invokeLlamaCpp` (lines 574-599)
walk the translated message list and skip any message whose role equals
the role of the previously emitted message. -/

/-- A wire-format chat message as the local providers see it; the
deduplication loop only reads `role`. -/
structure WireMsg where
  role : Str
  content : Str
deriving DecidableEq, Repr

/-- The deduplication loop shared verbatim by `invokeOllama` and
`invokeLlamaCpp`: drop a message when its role equals `lastRole`. -/
def dedupLoop (lastRole : Option Str) : List WireMsg → List WireMsg
  | [] => []
  | m :: rest =>
    if lastRole = some m.role then dedupLoop lastRole rest
    else m :: dedupLoop (some m.role) rest

/-- Entry point of the deduplication (starts with `lastRole = null`). -/
def dedupConsecutiveRoles (msgs : List WireMsg) : List WireMsg :=
  dedupLoop none msgs

/-- The structured `input` object of a tool_use block.  No translated code
path reads inside it, so it is modelled as a flat association list. -/
abbrev ToolInput := List (Str × Str)

/-- Content of a canonical tool_result block: a plain string or a
structured array of text payloads. -/
inductive TRContent where
  | plain (s : Str) : TRContent
  | parts (ps : List Str) : TRContent
deriving DecidableEq, Repr

/-- A canonical (Anthropic-style) content block, as far as the translated
functions inspect it. -/
inductive Block where
  | text (s : Str) : Block
  | toolUse (id name : Str) (input : ToolInput) : Block
  | toolResult (toolUseId : Str) (content : TRContent) : Block
deriving DecidableEq, Repr

/-- Canonical message content: a plain string or an array of blocks. -/
inductive MsgContent where
  | ofStr (s : Str) : MsgContent
  | blocks (bs : List Block) : MsgContent
deriving DecidableEq, Repr

/-- A canonical message. -/
structure CanMsg where
  role : Str
  content : MsgContent
deriving DecidableEq, Repr

/-- Is a block a text block (the `block.type === 'text'` test)? -/
def isTextBlock : Block → Bool
  | .text _ => true
  | _ => false

/-- The `block.text || ''` read of a block's text field. -/
def blockTextOrEmpty : Block → Str
  | .text s => s
  | _ => []

/-- Ollama content conversion (invokeOllama lines 211-225): an array of
blocks is reduced to the newline-join of its text blocks; `content || ''`
maps a falsy result to the empty string (the identity on our strings). -/
def ollamaContentOf : MsgContent → Str
  | .ofStr s => s
  | .blocks bs =>
    List.intercalate (str "\n") ((bs.filter isTextBlock).map blockTextOrEmpty)

/-- The converted message list `invokeOllama` builds before deduplication. -/
def ollamaConvertedMessages (msgs : List CanMsg) : List WireMsg :=
  msgs.map fun m => ⟨m.role, ollamaContentOf m.content⟩

/-- The message list `invokeOllama` sends: conversion then deduplication. -/
def ollamaMessages (msgs : List CanMsg) : List WireMsg :=
  dedupConsecutiveRoles (ollamaConvertedMessages msgs)

/-- The message list `invokeLlamaCpp` sends.  The OpenAI-format conversion
(`convertAnthropicMessagesToOpenRouter`, clients/openrouter-utils.js, not
under src/) is taken as an arbitrary already-converted list `converted`;
`invokeLlamaCpp` then optionally unshifts a system message (`if
(body.system)`, so only when truthy) and runs the deduplication loop. -/
def llamacppMessages (system : Option Str) (converted : List WireMsg) :
    List WireMsg :=
  let withSystem :=
    if strTruthy system then ⟨str "system", system.getD []⟩ :: converted
    else converted
  dedupConsecutiveRoles withSystem

/-! ### clients/databricks.js - `invokeBedrock` request conversion

Lines 771-817 build the Bedrock Converse request body: system-role
messages are filtered out of `messages`; every remaining message's content
blocks are mapped to `{ text: c.text || c.content || "" }` parts; the
top-level `system` field comes from `body.system` or, failing that, from
the first system-role message only. -/

/-- A canonical tool declaration. -/
structure ToolDecl where
  name : Str
  description : Str
  inputSchema : ToolInput
deriving DecidableEq, Repr

/-- The canonical request body, as far as `invokeBedrock` inspects it. -/
structure CanBody where
  model : Option Str
  system : Option Str
  messages : List CanMsg
  maxTokens : Option Nat
  temperature : Option ℚ
  topP : Option ℚ
  tools : Option (List ToolDecl)
deriving DecidableEq, Repr

/-- The JavaScript value stored under the `text` key of an emitted converse
part: a string, or (when a structured tool_result content array leaks
through `c.content`) the array itself. -/
inductive BText where
  | s (t : Str) : BText
  | contentArr (ps : List Str) : BText
deriving DecidableEq, Repr

/-- Truthiness of such a value (arrays are truthy even when empty). -/
def btTruthy : BText → Bool
  | .s t => !t.isEmpty
  | .contentArr _ => true

/-- JavaScript `a || b` on these values. -/
def jsOrBT (a : Option BText) (b : BText) : BText :=
  match a with
  | some v => if btTruthy v then v else b
  | none => b

/-- The `c.text` field of a block (only text blocks have one). -/
def blockTextField : Block → Option BText
  | .text s => some (.s s)
  | _ => none

/-- The `c.content` field of a block (only tool_result blocks have one). -/
def blockContentField : Block → Option BText
  | .toolResult _ (.plain s) => some (.s s)
  | .toolResult _ (.parts ps) => some (.contentArr ps)
  | _ => none

/-- The value `c.text || c.content || ""` computed for each content block
by the converse-body mapping. -/
def bedrockPartVal (b : Block) : BText :=
  jsOrBT (blockTextField b) (jsOrBT (blockContentField b) (.s []))

/-- A part of a Bedrock Converse message.  The conversion in the source
only ever emits `textPart`; the other constructors exist so that the
claimed mapping (tool_use to `toolUse`, tool_result to `toolResult`) is
expressible. -/
inductive ConversePart where
  | textPart (v : BText) : ConversePart
  | toolUsePart (toolUseId name : Str) (input : ToolInput) : ConversePart
  | toolResultPart (toolUseId : Str) (content : List Str) : ConversePart
deriving DecidableEq, Repr

/-- A Bedrock Converse message. -/
structure ConverseMsg where
  role : Str
  content : List ConversePart
deriving DecidableEq, Repr

/-- Conversion of one canonical message (lines 777-782): array content is
mapped block-wise to `{text: ...}` parts, string content becomes a single
`[{text: content}]`. -/
def converseMsgOf (m : CanMsg) : ConverseMsg :=
  { role := m.role
    content :=
      match m.content with
      | .ofStr s => [.textPart (.s s)]
      | .blocks bs => bs.map fun b => .textPart (bedrockPartVal b) }

/-- String coercion used by `Array.prototype.join`: strings stay, a nested
array stringifies as its comma-join. -/
def btJoinStr : BText → Str
  | .s t => t
  | .contentArr ps => List.intercalate (str ",") ps

/-- Flattening of the first system message (lines 790-792):
`content.map(c => c.text || c.content || "").join("\n")` for array content,
the content itself otherwise. -/
def systemFlatten (m : CanMsg) : Str
  := match m.content with
  | .ofStr s => s
  | .blocks bs =>
    List.intercalate (str "\n") (bs.map fun b => btJoinStr (bedrockPartVal b))

/-- The `inferenceConfig` of the converse body. -/
structure InferenceConfig where
  maxTokens : Nat
  temperature : Option ℚ
  topP : Option ℚ
deriving DecidableEq, Repr

/-- One `toolSpec` entry of the converse `toolConfig`. -/
structure ToolSpec where
  name : Str
  description : Str
  inputSchemaJson : ToolInput
deriving DecidableEq, Repr

/-- The Bedrock Converse request body. -/
structure ConverseBody where
  messages : List ConverseMsg
  system : Option (List ConversePart)
  inferenceConfig : Option InferenceConfig
  toolConfig : Option (List ToolSpec)
deriving DecidableEq, Repr

/-- Is a message's role the string `"system"`? -/
def isSystemRole (m : CanMsg) : Bool := m.role == str "system"

/-- Embedding of the converse-body construction of `invokeBedrock` (lines
740-818).  `stdTools` stands for `STANDARD_TOOLS` (clients/
standard-tools.js is not under src/); it is injected when the caller sent
no tools. -/
def converseBodyOf (stdTools : List ToolDecl) (body : CanBody) :
    ConverseBody :=
  let toolsToSend :=
    match body.tools with
    | some ts => if ts.isEmpty then stdTools else ts
    | none => stdTools
  let systemMessages := body.messages.filter isSystemRole
  { messages := (body.messages.filter fun m => !isSystemRole m).map converseMsgOf
    system :=
      if strTruthy body.system then some [.textPart (.s (body.system.getD []))]
      else
        match systemMessages with
        | m :: _ => some [.textPart (.s (systemFlatten m))]
        | [] => none
    inferenceConfig :=
      match body.maxTokens with
      | some n =>
        if n = 0 then none
        else some ⟨n, body.temperature, body.topP⟩
      | none => none
    toolConfig :=
      if toolsToSend.isEmpty then none
      else some (toolsToSend.map fun t => ⟨t.name, t.description, t.inputSchema⟩) }

/-! ### clients/databricks.js - `invokeBedrock` response conversion

Lines 866-892 convert the Converse API response back to the Anthropic
shape.  Note that `model` is set to `config.bedrock.modelId`. -/

/-- The Bedrock provider configuration. -/
structure BedrockCfg where
  apiKey : Option Str
  modelId : Str
  region : Str
deriving DecidableEq, Repr

/-- One entry of the converse response's `output.message.content`. -/
inductive ConverseItem where
  | textItem (s : Str) : ConverseItem
  | toolUseItem (toolUseId name : Str) (input : ToolInput) : ConverseItem
deriving DecidableEq, Repr

/-- The converse response, as far as the conversion reads it. -/
structure ConverseResponse where
  outputMessageRole : Str
  outputMessageContent : List ConverseItem
  stopReason : Option Str
  usageInputTokens : Option Nat
  usageOutputTokens : Option Nat
deriving DecidableEq, Repr

/-- A canonical (Anthropic-style) response content entry.  `rawItem`
models the `return item` branch: an item that is neither truthy-`text`
nor `toolUse` is passed through unchanged. -/
inductive AnthContent where
  | text (s : Str) : AnthContent
  | toolUse (id name : Str) (input : ToolInput) : AnthContent
  | rawItem (item : ConverseItem) : AnthContent
deriving DecidableEq, Repr

/-- Item conversion (lines 872-884): `item.text` is a truthiness test, so
an item `{text: ""}` falls through both checks and is returned as-is. -/
def convertConverseItem (item : ConverseItem) : AnthContent :=
  match item with
  | .textItem s => if !s.isEmpty then .text s else .rawItem item
  | .toolUseItem id name input => .toolUse id name input

/-- Stop-reason mapping of the Bedrock path (lines 885-887). -/
def bedrockStopReason (stopReason : Option Str) : Str :=
  if stopReason == some (str "end_turn") then str "end_turn"
  else if stopReason == some (str "tool_use") then str "tool_use"
  else if stopReason == some (str "max_tokens") then str "max_tokens"
  else str "end_turn"

/-- The canonical response assembled by `invokeBedrock`. -/
structure AnthResponse where
  id : Str
  rtype : Str
  role : Str
  model : Str
  content : List AnthContent
  stopReason : Str
  usageInputTokens : Nat
  usageOutputTokens : Nat
deriving DecidableEq, Repr

/-- Decimal rendering of a natural number (for the `Date.now()`-based id). -/
def natStr (n : Nat) : Str := (Nat.repr n).toList

/-- Embedding of the response conversion of `invokeBedrock` (lines
866-892); `now` models `Date.now()`.  The `model` field is
`config.bedrock.modelId` - the caller's requested model is not consulted. -/
def bedrockAnthropicResponse (cfg : BedrockCfg) (now : Nat)
    (r : ConverseResponse) : AnthResponse :=
  { id := str "bedrock-" ++ natStr now
    rtype := str "message"
    role := r.outputMessageRole
    model := cfg.modelId
    content := r.outputMessageContent.map convertConverseItem
    stopReason := bedrockStopReason r.stopReason
    usageInputTokens := jsOrNum r.usageInputTokens 0
    usageOutputTokens := jsOrNum r.usageOutputTokens 0 }

/-! ### clients/databricks.js - `invokeModel` dispatch and fallback

Lines 1004-1107: on a thrown primary error, fallback is attempted exactly
when `preferOllama && initialProvider === "ollama" && isFallbackEnabled()
&& !options.disableFallback`; the error itself is only passed to
`categorizeFailure` for the logged/recorded reason. -/

/-- A JavaScript `Error` as far as `categorizeFailure` inspects it. -/
structure JsError where
  name : Str
  code : Option Str
  message : Str
  status : Option Nat
deriving DecidableEq, Repr

/-- Embedding of `categorizeFailure` (lines 1113-1132). -/
def categorizeFailure (e : JsError) : Str :=
  if e.name == str "CircuitBreakerError" || e.code == some (str "circuit_breaker_open") then
    str "circuit_breaker"
  else if e.name == str "AbortError" || e.code == some (str "ETIMEDOUT") then
    str "timeout"
  else if strIncludes e.message (str "not configured") ||
      strIncludes e.message (str "not available") ||
      e.code == some (str "ECONNREFUSED") then
    str "service_unavailable"
  else if strIncludes e.message (str "tool") || strIncludes e.message (str "function") then
    str "tool_incompatible"
  else if e.status == some 429 || e.code == some (str "RATE_LIMITED") then
    str "rate_limited"
  else
    str "error"

/-- Modelled from the spec: the section-7 error taxonomy. -/
inductive SpecErrKind where
  | transport : SpecErrKind
  | timedOut : SpecErrKind
  | rateLimited : SpecErrKind
  | serverError : SpecErrKind
  | circuitBreakerOpen : SpecErrKind
  | invalidRequest : SpecErrKind
  | toolIncompatible : SpecErrKind
  | noChoices : SpecErrKind
  | configError : SpecErrKind
deriving DecidableEq, Repr

/-- Modelled from the spec: the Fallback-eligible column of the section-7
table (`config` and `invalid_request` and `no_choices` are not
fallback-eligible). -/
def specFallbackEligible : SpecErrKind → Bool
  | .transport => true
  | .timedOut => true
  | .rateLimited => true
  | .serverError => true
  | .circuitBreakerOpen => true
  | .invalidRequest => false
  | .toolIncompatible => true
  | .noChoices => false
  | .configError => false

/-- The configuration-error thrown by `invokeOllama` (line 201) when
`config.ollama.endpoint` is unset; per the section-7 taxonomy this is a
`config` error (missing endpoint). -/
def ollamaEndpointMissingError : JsError :=
  ⟨str "Error", none, str "Ollama endpoint is not configured.", none⟩

/-- An upstream invocation result, kept abstract (the dispatch logic never
inspects it beyond passing it through). -/
structure UpstreamResult where
  ok : Bool
  status : Nat
  payload : Str
deriving DecidableEq, Repr

/-- The routing-decision record attached to the returned result; the
observability-only fields (score, threshold, mode, recommendation,
taskType) are carried unchanged from the analyzer and omitted here. -/
structure RoutingDecision where
  provider : Str
  method : Str
  fallbackReason : Option Str
deriving DecidableEq, Repr

/-- The value `invokeModel` resolves with. -/
structure InvokeSuccess where
  result : UpstreamResult
  actualProvider : Str
  routing : RoutingDecision
deriving DecidableEq, Repr

/-- Embedding of the dispatch-and-fallback control flow of `invokeModel`
(lines 1004-1107).  `initialProvider` is `options.forceProvider ??
determineProvider(body)` (routing/index.js is not under src/, so the
resolved provider is a parameter); `primary` and `fallback` are the
outcomes of the two possible provider invocations.  The second component
counts how many times the fallback provider was invoked. -/
def invokeModelSim (preferOllama fallbackEnabled disableFallback : Bool)
    (initialProvider fallbackProvider : Str)
    (primary fallback : Except JsError UpstreamResult) :
    Except JsError InvokeSuccess × Nat :=
  match primary with
  | .ok r =>
    (.ok ⟨r, initialProvider, ⟨initialProvider, str "complexity", none⟩⟩, 0)
  | .error e =>
    let shouldFallback :=
      preferOllama && initialProvider == str "ollama" &&
        fallbackEnabled && !disableFallback
    if !shouldFallback then (.error e, 0)
    else
      match fallback with
      | .ok r =>
        (.ok ⟨r, fallbackProvider,
          ⟨fallbackProvider, str "fallback", some (categorizeFailure e)⟩⟩, 1)
      | .error e2 => (.error e2, 1)

/-! ### memory extraction - `createMemoryWithSurprise`

`calculateInitialImportance` (memory extraction module lines 735-749) and
the surprise-threshold gate (lines 687-705). -/

/-- The five memory types produced by the extraction pipeline (the only
values ever passed to `createMemoryWithSurprise` by its callers). -/
inductive MemType where
  | preference : MemType
  | decision : MemType
  | fact : MemType
  | entity : MemType
  | relationship : MemType
deriving DecidableEq, Repr

/-- The `baseImportance` table (lines 737-743); `?? 0.5` is unreachable
for the five concrete types. -/
def baseImportance : MemType → ℚ
  | .preference => 7 / 10
  | .decision => 8 / 10
  | .fact => 6 / 10
  | .entity => 4 / 10
  | .relationship => 5 / 10

/-- Embedding of `calculateInitialImportance`:
`Math.min(1.0, base + surpriseScore * 0.3)`. -/
def calculateInitialImportance (t : MemType) (surpriseScore : ℚ) : ℚ :=
  min 1 (baseImportance t + surpriseScore * (3 / 10))

/-- The surprise threshold: `config.memory?.surpriseThreshold ?? 0.3`. -/
def memorySurpriseThreshold (cfgVal : Option ℚ) : ℚ :=
  cfgVal.getD (3 / 10)

/-- A stored memory record, as far as the claim inspects it. -/
structure MemoryRecord where
  content : Str
  mtype : MemType
  importance : ℚ
  surpriseScore : ℚ
deriving DecidableEq, Repr

/-- Embedding of `createMemoryWithSurprise` (lines 687-730).  The surprise
score itself is computed by `surprise.calculateSurprise` (not under src/),
so it is a parameter here; candidates below the threshold are discarded
(`if (surpriseScore < threshold) return null`). -/
def createMemoryWithSurprise (threshold : ℚ) (content : Str) (t : MemType)
    (surpriseScore : ℚ) : Option MemoryRecord :=
  if surpriseScore < threshold then none
  else some
    { content := content
      mtype := t
      importance := calculateInitialImportance t surpriseScore
      surpriseScore := surpriseScore }

/-! ### clients/responses-format.js - `convertResponsesToChat`

Lines 17-163: the `input` field is a string, an array of raw messages, or
something else.  In the array case each entry is kept only if it is
non-null, has a truthy `role`, and has a truthy `content` or `tool_calls`
or `tool_call_id`; surviving entries are cleaned, and an error is thrown
exactly when no entry survives. -/

/-- One entry of a content-parts array (`{type, text, input_text}`). -/
structure RPart where
  ptype : Option Str
  text : Option Str
  inputText : Option Str
deriving DecidableEq, Repr

/-- The `content` field of a raw Responses-shape message: a string or an
array of (possibly null) parts. -/
inductive RContent where
  | cstr (s : Str) : RContent
  | cparts (ps : List (Option RPart)) : RContent
deriving DecidableEq, Repr

/-- A raw Responses-shape message.  `toolCalls` records whether a
`tool_calls` array is present (such an array is always truthy and is
copied through unchanged, so only its presence matters here). -/
structure REntry where
  role : Option Str
  content : Option RContent
  name : Option Str
  toolCalls : Bool
  toolCallId : Option Str
deriving DecidableEq, Repr

/-- Truthiness of the `content` field (an array is truthy even if empty;
an empty string is falsy). -/
def rcontentTruthy : Option RContent → Bool
  | some (.cstr s) => !s.isEmpty
  | some (.cparts _) => true
  | none => false

/-- The filter of line 51-64: `msg && msg.role && (msg.content ||
msg.tool_calls || msg.tool_call_id)`. -/
def keepEntry : Option REntry → Bool
  | none => false
  | some m =>
    strTruthy m.role &&
      (rcontentTruthy m.content || m.toolCalls || strTruthy m.toolCallId)

/-- JavaScript `a || b` for optional strings (an empty string falls
through to the default). -/
def jsOrStr (a : Option Str) (b : Str) : Str :=
  match a with
  | some s => if s.isEmpty then b else s
  | none => b

/-- The content-part filter of lines 74-75: `part && (part.type === 'text'
|| part.type === 'input_text')`. -/
def partIsText : Option RPart → Bool
  | none => false
  | some p => p.ptype == some (str "text") || p.ptype == some (str "input_text")

/-- The text extracted from one kept part: `part.text || part.input_text
|| ''` (line 76). -/
def partTextOf : Option RPart → Str
  | none => []
  | some p => jsOrStr p.text (jsOrStr p.inputText [])

/-- The non-empty extracted texts of a parts array (lines 74-77). -/
def extractedTexts (ps : List (Option RPart)) : List Str :=
  ((ps.filter partIsText).map partTextOf).filter fun t => !t.isEmpty

/-- A cleaned chat-completions message (lines 93-103). -/
structure CleanMsg where
  role : Str
  content : Option RContent
  name : Option Str
  toolCalls : Bool
  toolCallId : Option Str
deriving DecidableEq, Repr

/-- Cleaning of one surviving entry (lines 65-104): `msg.content || null`,
then flattening of a parts array into a blank-line join of its non-empty
texts when at least one exists. -/
def cleanEntry (e : Option REntry) : CleanMsg :=
  match e with
  | none => ⟨[], none, none, false, none⟩
  | some m =>
    let content0 := if rcontentTruthy m.content then m.content else none
    let content1 :=
      match content0 with
      | some (.cparts ps) =>
        let texts := extractedTexts ps
        if texts.length > 0 then some (.cstr (List.intercalate (str "\n\n") texts))
        else content0
      | _ => content0
    { role := m.role.getD []
      content := content1
      name := if strTruthy m.name then m.name else none
      toolCalls := m.toolCalls
      toolCallId := if strTruthy m.toolCallId then m.toolCallId else none }

/-- The `input` field of a Responses-shape request. -/
inductive RInput where
  | istr (s : Str) : RInput
  | iarr (es : List (Option REntry)) : RInput
  | iother (v : Option JsPrim) : RInput
deriving DecidableEq, Repr

/-- String coercion used in the fallback branch: `String(input || "")`. -/
def jsPrimToString : JsPrim → Str
  | .jbool true => str "true"
  | .jbool false => str "false"
  | .jnum n => (Int.repr n).toList
  | .jstring s => s

/-- The message list produced by `convertResponsesToChat`, or the thrown
"no valid messages" error. -/
def convertResponsesToChatMsgs (input : RInput) : Except Str (List CleanMsg) :=
  match input with
  | .istr s => .ok [⟨str "user", some (.cstr s), none, false, none⟩]
  | .iarr es =>
    let msgs := (es.filter keepEntry).map cleanEntry
    if msgs.isEmpty then
      .error (str "Responses API: No valid messages after filtering. All messages were invalid.")
    else .ok msgs
  | .iother v =>
    let s := match v with
      | some p => if jsPrimTruthy p then jsPrimToString p else []
      | none => []
    .ok [⟨str "user", some (.cstr s), none, false, none⟩]

/-- Claim-side predicate: an entry "lacking a role or lacking all of
content, tool_calls and tool_call_id" (a null entry lacks everything). -/
def lacksRoleOrPayload : Option REntry → Bool
  | none => true
  | some m =>
    !strTruthy m.role ||
      (!rcontentTruthy m.content && !m.toolCalls && !strTruthy m.toolCallId)

/-! ### routing/complexity-analyzer.js - regular-expression machinery

The analyzer's patterns are alternations of case-insensitive literals
joined by `\s+`/`\s*`, optional groups, small character classes and the
`\b` word boundary.  They are embedded with a nondeterministic matcher:
a `Matcher` maps an input to the list of possible remainders after a
match of the pattern as a prefix.  All patterns carry the `i` flag and
contain only ASCII letters, so matching is done on the lowercased input. -/

/-- A nondeterministic prefix matcher: all possible remainders. -/
abbrev Matcher := Str → List Str

/-- Match a single character satisfying `p`. -/
def mChar (p : Char → Bool) : Matcher := fun s =>
  match s with
  | [] => []
  | c :: rest => if p c then [rest] else []

/-- Match a literal string (already lowercased). -/
def mLit (w : Str) : Matcher := fun s =>
  if w.isPrefixOf s then [s.drop w.length] else []

/-- Sequencing of two matchers. -/
def mSeq (a b : Matcher) : Matcher := fun s => (a s).flatMap b

/-- Alternation of a list of matchers. -/
def mAlts (ms : List Matcher) : Matcher := fun s => ms.flatMap (fun m => m s)

/-- The `?` quantifier. -/
def mOpt (a : Matcher) : Matcher := fun s => s :: a s

/-- One or more characters satisfying `p`, with every stop point. -/
def mPlus (p : Char → Bool) : Matcher
  | [] => []
  | c :: rest => if p c then rest :: mPlus p rest else []

/-- Zero or more characters satisfying `p`. -/
def mStar (p : Char → Bool) : Matcher := fun s => s :: mPlus p s

/-- The JavaScript `\s` class (the ASCII members). -/
def isSpaceChar (c : Char) : Bool :=
  c = ' ' || c = '\t' || c = '\n' || c = '\r' ||
    c = Char.ofNat 11 || c = Char.ofNat 12

/-- The JavaScript `\w` class: `[A-Za-z0-9_]`. -/
def isWordChar (c : Char) : Bool := c.isAlphanum || c = '_'

/-- `\s+`. -/
def mWs1 : Matcher := mPlus isSpaceChar

/-- `\s*`. -/
def mWs0 : Matcher := mStar isSpaceChar

/-- `\d+`. -/
def mDigits1 : Matcher := mPlus Char.isDigit

/-- The `.` metacharacter (anything but a line terminator). -/
def mDot : Matcher := mChar fun c => c ≠ '\n' && c ≠ '\r'

/-- Two literal words separated by `\s+`. -/
def mWords2 (a b : String) : Matcher :=
  mSeq (mLit (str a)) (mSeq mWs1 (mLit (str b)))

/-- A literal with an optional literal tail, e.g. `file` + `s?`. -/
def mLitOpt (a tail : String) : Matcher :=
  mSeq (mLit (str a)) (mOpt (mLit (str tail)))

/-- End-of-match check: `endAnchor` demands the end of the string
(`$`), `trailB` a trailing word boundary (the patterns end in word
characters, so the next character must not be one). -/
def matchEndOk (trailB endAnchor : Bool) (rest : Str) : Bool :=
  if endAnchor then rest.isEmpty
  else if trailB then
    match rest with
    | [] => true
    | c :: _ => !isWordChar c
  else true

/-- Does the pattern match at the current position with the given end
condition? -/
def testFrom (m : Matcher) (trailB endAnchor : Bool) (s : Str) : Bool :=
  (m s).any (matchEndOk trailB endAnchor)

/-- A leading word boundary holds before a word character when the
previous character (if any) is not a word character (the patterns start
in word characters). -/
def leadBoundOk (prev : Option Char) : Bool :=
  match prev with
  | none => true
  | some c => !isWordChar c

/-- Unanchored `RegExp.prototype.test`: try every start position,
enforcing a leading word boundary when `leadB`. -/
def searchFrom (m : Matcher) (leadB trailB : Bool) :
    Option Char → Str → Bool
  | prev, [] => (!leadB || leadBoundOk prev) && testFrom m trailB false []
  | prev, c :: rest =>
    ((!leadB || leadBoundOk prev) && testFrom m trailB false (c :: rest)) ||
      searchFrom m leadB trailB (some c) rest

/-- Lowercase an embedded string (the ASCII effect of the `i` flag). -/
def lowerStr (s : Str) : Str := s.map Char.toLower

/-- `.test` for an unanchored `\b`-delimited pattern. -/
def jsSearch (m : Matcher) (leadB trailB : Bool) (s : Str) : Bool :=
  searchFrom m leadB trailB none (lowerStr s)

/-- `.test` for a `^`-anchored pattern, optionally `$`-anchored. -/
def jsAnchored (m : Matcher) (endAnchor : Bool) (s : Str) : Bool :=
  testFrom m false endAnchor (lowerStr s)

/-- The apostrophe character. -/
def apos : Char := Char.ofNat 39

/-! #### The PATTERNS table (lines 22-37) -/

/-- Core of `PATTERNS.greeting`. -/
def greetingCore : Matcher := mAlts
  [mLit (str "hi"), mLit (str "hello"), mLit (str "hey"),
   mSeq (mLit (str "good")) (mSeq mWs0 (mAlts
     [mLit (str "morning"), mLit (str "afternoon"), mLit (str "evening")])),
   mLit (str "howdy"), mLit (str "greetings"), mLit (str "sup"),
   mLit (str "yo"), mLitOpt "thank" "s",
   mSeq (mLit (str "thank")) (mSeq mWs0 (mLit (str "you")))]

/-- The trailing class `[\s\.\!\?,]` of `PATTERNS.greeting`. -/
def greetingTrailChar (c : Char) : Bool :=
  isSpaceChar c || c = '.' || c = '!' || c = '?' || c = ','

/-- `PATTERNS.greeting.test`. -/
def testGreeting (s : Str) : Bool :=
  jsAnchored (mSeq greetingCore (mStar greetingTrailChar)) true s

/-- `PATTERNS.simpleQuestion.test`:
`^(what\s+is|what's|define|who\s+is|when\s+was|where\s+is)\s+\w`. -/
def testSimpleQuestion (s : Str) : Bool :=
  jsAnchored
    (mSeq
      (mAlts
        [mWords2 "what" "is",
         mSeq (mLit (str "what")) (mSeq (mChar (fun c => c = apos)) (mLit (str "s"))),
         mLit (str "define"), mWords2 "who" "is", mWords2 "when" "was",
         mWords2 "where" "is"])
      (mSeq mWs1 (mChar isWordChar)))
    false s

/-- `PATTERNS.yesNo.test`:
`^(is\s+it|are\s+there|can\s+i|do\s+you|does\s+it|will\s+it|should\s+i)\s+`. -/
def testYesNo (s : Str) : Bool :=
  jsAnchored
    (mSeq
      (mAlts
        [mWords2 "is" "it", mWords2 "are" "there", mWords2 "can" "i",
         mWords2 "do" "you", mWords2 "does" "it", mWords2 "will" "it",
         mWords2 "should" "i"])
      mWs1)
    false s

/-- `PATTERNS.technical.test`: a `\b`-delimited alternation of keywords. -/
def testTechnical (s : Str) : Bool :=
  jsSearch
    (mAlts ([ "code", "function", "class", "method", "variable", "api",
      "database", "server", "client", "module", "import", "export",
      "async", "await", "promise", "component", "interface", "type",
      "struct", "enum"].map fun w => mLit (str w)))
    true true s

/-! #### ADVANCED_PATTERNS.codeComplexity (lines 45-53) -/

/-- `files?`. -/
def mFiles : Matcher := mLitOpt "file" "s"

/-- `codeComplexity.multiFile.test`. -/
def testMultiFile (s : Str) : Bool :=
  jsSearch
    (mAlts
      [mSeq mDigits1 (mSeq mWs0 (mSeq (mOpt (mChar (fun c => c = '+')))
        (mSeq mWs0 mFiles))),
       mSeq (mLit (str "multiple")) (mSeq mWs1 mFiles),
       mSeq (mLit (str "across")) (mSeq mWs1 mFiles),
       mSeq (mLit (str "all")) (mSeq mWs1 mFiles),
       mWords2 "every" "file"])
    true true s

/-- `codeComplexity.architecture.test`. -/
def testArchitecture (s : Str) : Bool :=
  jsSearch
    (mAlts
      [mLitOpt "architect" "ure", mLit (str "microservice"),
       mLit (str "distributed"), mWords2 "system" "design",
       mLit (str "scalab"), mLit (str "infrastructure")])
    true true s

/-- `codeComplexity.concurrent.test`. -/
def testConcurrent (s : Str) : Bool :=
  jsSearch
    (mAlts
      ([ "async", "concurrent", "parallel", "thread", "worker", "queue",
         "mutex", "lock"].map (fun w => mLit (str w)) ++
       [mWords2 "race" "condition"]))
    true true s

/-- `codeComplexity.security.test`. -/
def testSecurity (s : Str) : Bool :=
  jsSearch
    (mAlts
      [mLit (str "security"), mLitOpt "auth" "entication",
       mSeq (mLit (str "authori")) (mSeq (mChar (fun c => c = 's' || c = 'z'))
         (mLit (str "ation"))),
       mLit (str "encrypt"), mLit (str "decrypt"), mLit (str "vulnerab"),
       mLit (str "injection"), mLit (str "xss"), mLit (str "csrf"),
       mLit (str "sanitiz")])
    true true s

/-- `codeComplexity.testing.test` (`end.to.end` uses the dot
metacharacter). -/
def testTesting (s : Str) : Bool :=
  jsSearch
    (mAlts
      [mWords2 "test" "coverage", mWords2 "integration" "test",
       mLit (str "e2e"),
       mSeq (mLit (str "end")) (mSeq mDot (mSeq (mLit (str "to"))
         (mSeq mDot (mLit (str "end"))))),
       mWords2 "unit" "test", mLit (str "regression"), mLit (str "benchmark")])
    true true s

/-- `codeComplexity.performance.test`. -/
def testPerformance (s : Str) : Bool :=
  jsSearch
    (mAlts
      [mSeq (mLit (str "optimi")) (mSeq (mChar (fun c => c = 's' || c = 'z'))
        (mLit (str "e"))),
       mLit (str "performance"), mWords2 "memory" "leak",
       mLit (str "profil"), mLit (str "bottleneck"),
       mSeq (mLit (str "cach")) (mAlts [mLit (str "e"), mLit (str "ing")])])
    true true s

/-- `codeComplexity.database.test`. -/
def testDatabase (s : Str) : Bool :=
  jsSearch
    (mAlts
      [mLit (str "migration"), mLit (str "schema"), mLit (str "index"),
       mWords2 "query" "optimi", mLit (str "transaction"),
       mLit (str "rollback"), mLit (str "backup")])
    true true s

/-! #### ADVANCED_PATTERNS.reasoning (lines 56-62) -/

/-- `reasoning.stepByStep.test`. -/
def testStepByStep (s : Str) : Bool :=
  jsSearch
    (mAlts
      [mSeq (mLit (str "step")) (mSeq mWs1 (mSeq (mLit (str "by"))
        (mSeq mWs1 (mLit (str "step"))))),
       mWords2 "think" "through",
       mSeq (mLit (str "let")) (mSeq (mOpt (mChar (fun c => c = apos)))
         (mSeq (mLit (str "s")) (mSeq mWs1 (mLit (str "reason"))))),
       mLit (str "reasoning"),
       mSeq (mLit (str "chain")) (mSeq mWs1 (mSeq (mLit (str "of"))
         (mSeq mWs1 (mLit (str "thought")))))])
    true true s

/-- `reasoning.tradeoffs.test`. -/
def testTradeoffs (s : Str) : Bool :=
  jsSearch
    (mAlts
      [mSeq (mLit (str "trade")) (mSeq (mOpt mDot) (mLit (str "off"))),
       mSeq (mLitOpt "pro" "s") (mSeq mWs1 (mSeq (mLit (str "and"))
         (mSeq mWs1 (mLitOpt "con" "s")))),
       mSeq (mLit (str "compare")) (mSeq mWs1 (mLitOpt "option" "s")),
       mSeq (mLit (str "weigh")) (mSeq mWs1 (mSeq
         (mOpt (mSeq (mLit (str "the")) mWs1)) (mLitOpt "option" "s"))),
       mSeq (mLitOpt "advantage" "s") (mSeq mWs1 (mSeq (mLit (str "and"))
         (mSeq mWs1 (mLitOpt "disadvantage" "s"))))])
    true true s

/-- `reasoning.analysis.test`. -/
def testAnalysis (s : Str) : Bool :=
  jsSearch
    (mAlts
      [mSeq (mLit (str "analy")) (mSeq (mChar (fun c => c = 's' || c = 'z'))
        (mLit (str "e"))),
       mLit (str "evaluat"), mLit (str "assess"),
       mSeq (mLit (str "review")) (mSeq mWs1 (mAlts
         [mLit (str "the"), mLit (str "this"), mLit (str "my")])),
       mLit (str "audit"), mLit (str "investigate"), mLit (str "diagnos")])
    true true s

/-- `reasoning.planning.test`. -/
def testPlanning (s : Str) : Bool :=
  jsSearch
    (mAlts
      [mLitOpt "plan" "ning", mLit (str "strategy"), mLit (str "approach"),
       mLit (str "roadmap"), mWords2 "design" "doc", mLit (str "rfc"),
       mLit (str "proposal")])
    true true s

/-- `reasoning.edgeCases.test`. -/
def testEdgeCases (s : Str) : Bool :=
  jsSearch
    (mAlts
      [mWords2 "edge" "case", mWords2 "corner" "case", mWords2 "what" "if",
       mLit (str "exception"), mWords2 "error" "handling",
       mLit (str "fallback")])
    true true s

/-! #### ADVANCED_PATTERNS.taskScope (lines 65-70) -/

/-- `taskScope.entire.test` (no trailing `\b` in the source pattern). -/
def testEntireScope (s : Str) : Bool :=
  jsSearch
    (mSeq
      (mAlts
        [mLit (str "entire"), mLit (str "whole"), mLit (str "complete"),
         mLit (str "full"), mWords2 "all" "of"])
      (mSeq mWs1 (mAlts
        [mLit (str "codebase"), mLit (str "project"), mLit (str "app"),
         mLit (str "application"), mLit (str "system"), mLit (str "repo")])))
    true false s

/-- `taskScope.refactor.test`. -/
def testRefactorScope (s : Str) : Bool :=
  jsSearch
    (mAlts
      [mLit (str "refactor"), mLit (str "restructure"),
       mSeq (mLit (str "reorgani")) (mSeq (mChar (fun c => c = 's' || c = 'z'))
         (mLit (str "e"))),
       mLit (str "rewrite"), mLit (str "overhaul"), mLit (str "migrate")])
    true true s

/-- `taskScope.implement.test` (no trailing `\b` in the source pattern). -/
def testImplementScope (s : Str) : Bool :=
  jsSearch
    (mSeq
      (mAlts
        [mLit (str "implement"), mLit (str "build"), mLit (str "create"),
         mLit (str "develop")])
      (mSeq mWs1 (mSeq (mOpt (mSeq (mLit (str "a")) mWs1))
        (mSeq (mOpt (mSeq (mLit (str "new")) mWs1))
          (mAlts
            [mLit (str "feature"), mLit (str "system"), mLit (str "module"),
             mLit (str "service"), mLit (str "api")])))))
    true false s

/-- `taskScope.fromScratch.test`. -/
def testFromScratch (s : Str) : Bool :=
  jsSearch
    (mAlts
      [mWords2 "from" "scratch", mWords2 "ground" "up",
       mLit (str "greenfield"), mLit (str "bootstrap"), mLit (str "scaffold")])
    true true s

/-! #### FORCE_CLOUD_PATTERNS (lines 74-81) and FORCE_LOCAL_PATTERNS
(lines 84-89) -/

/-- The first force-cloud pattern:
`\b(security\s+(audit|review|assessment)|penetration\s+test|vulnerability\s+scan)\b`. -/
def testForceCloud1 (s : Str) : Bool :=
  jsSearch
    (mAlts
      [mSeq (mLit (str "security")) (mSeq mWs1 (mAlts
        [mLit (str "audit"), mLit (str "review"), mLit (str "assessment")])),
       mWords2 "penetration" "test", mWords2 "vulnerability" "scan"])
    true true s

/-- The second force-cloud pattern. -/
def testForceCloud2 (s : Str) : Bool :=
  jsSearch
    (mAlts
      [mSeq (mLitOpt "architect" "ure") (mSeq mWs1 (mAlts
        [mLit (str "review"), mLit (str "design"), mLit (str "diagram")])),
       mWords2 "system" "design"])
    true true s

/-- The third force-cloud pattern. -/
def testForceCloud3 (s : Str) : Bool :=
  jsSearch
    (mAlts
      [mSeq (mLit (str "refactor")) (mSeq mWs1 (mAlts
        [mLit (str "entire"), mLit (str "whole"), mLit (str "all"),
         mWords2 "the" "entire"])),
       mWords2 "complete" "rewrite"])
    true true s

/-- The fourth force-cloud pattern. -/
def testForceCloud4 (s : Str) : Bool :=
  jsSearch
    (mAlts
      [mWords2 "code" "review", mWords2 "pr" "review",
       mSeq (mLit (str "pull")) (mSeq mWs1 (mSeq (mLit (str "request"))
         (mSeq mWs1 (mLit (str "review")))))])
    true true s

/-- The fifth force-cloud pattern. -/
def testForceCloud5 (s : Str) : Bool :=
  jsSearch
    (mSeq (mLitOpt "debug" "ging") (mSeq mWs1 (mAlts
      [mLit (str "complex"), mLit (str "difficult"), mLit (str "hard"),
       mLit (str "tricky")])))
    true true s

/-- The sixth force-cloud pattern. -/
def testForceCloud6 (s : Str) : Bool :=
  jsSearch
    (mSeq (mLit (str "production")) (mSeq mWs1 (mAlts
      [mLit (str "issue"), mLit (str "bug"), mLit (str "incident"),
       mLit (str "outage")])))
    true true s

/-- Does the content match any `FORCE_CLOUD_PATTERNS` entry? -/
def matchesForceCloud (s : Str) : Bool :=
  testForceCloud1 s || testForceCloud2 s || testForceCloud3 s ||
    testForceCloud4 s || testForceCloud5 s || testForceCloud6 s

/-- The trailing class `[\s\.\!\?]` of the force-local patterns. -/
def flTrailChar (c : Char) : Bool :=
  isSpaceChar c || c = '.' || c = '!' || c = '?'

/-- The first force-local pattern:
`^(hi|hello|hey|thanks?|thank\s*you|bye|goodbye)[\s\.\!\?]*$`. -/
def testForceLocal1 (s : Str) : Bool :=
  jsAnchored
    (mSeq
      (mAlts
        [mLit (str "hi"), mLit (str "hello"), mLit (str "hey"),
         mLitOpt "thank" "s",
         mSeq (mLit (str "thank")) (mSeq mWs0 (mLit (str "you"))),
         mLit (str "bye"), mLit (str "goodbye")])
      (mStar flTrailChar))
    true s

/-- The second force-local pattern: `^what\s+(time|day|date)\s+is\s+it`
(not anchored at the end). -/
def testForceLocal2 (s : Str) : Bool :=
  jsAnchored
    (mSeq (mLit (str "what")) (mSeq mWs1 (mSeq
      (mAlts [mLit (str "time"), mLit (str "day"), mLit (str "date")])
      (mSeq mWs1 (mSeq (mLit (str "is")) (mSeq mWs1 (mLit (str "it"))))))))
    false s

/-- The third force-local pattern. -/
def testForceLocal3 (s : Str) : Bool :=
  jsAnchored
    (mSeq
      (mAlts
        [mLit (str "yes"), mLit (str "no"), mLit (str "ok"),
         mLit (str "okay"), mLit (str "sure"), mWords2 "got" "it",
         mLit (str "understood")])
      (mStar flTrailChar))
    true s

/-- The fourth force-local pattern. -/
def testForceLocal4 (s : Str) : Bool :=
  jsAnchored
    (mSeq
      (mAlts
        [mLit (str "help"), mLit (str "menu"), mLitOpt "command" "s",
         mLitOpt "option" "s"])
      (mStar flTrailChar))
    true s

/-- Does the content match any `FORCE_LOCAL_PATTERNS` entry? -/
def matchesForceLocal (s : Str) : Bool :=
  testForceLocal1 s || testForceLocal2 s || testForceLocal3 s ||
    testForceLocal4 s

/-! #### routing/complexity-analyzer.js - scoring and analysis -/

/-- The analyzer's view of the request payload. -/
structure AnalyzerPayload where
  messages : Option (List CanMsg)
  tools : Option (List ToolDecl)
deriving DecidableEq, Repr

/-- Scan for the last user message (`extractContent`, lines 136-158),
walking the reversed message list. -/
def extractContentGo : List CanMsg → Str
  | [] => []
  | m :: rest =>
    if m.role == str "user" then
      match m.content with
      | .ofStr s => s
      | .blocks bs =>
        List.intercalate (str " ") ((bs.filter isTextBlock).map blockTextOrEmpty)
    else extractContentGo rest

/-- Embedding of `extractContent`. -/
def extractContent (p : AnalyzerPayload) : Str :=
  match p.messages with
  | none => []
  | some msgs => extractContentGo msgs.reverse

/-- Character count of one message's content as `estimateTokens` sums it
(blocks only contribute their truthy `text` fields, which coincides with
the lengths of `blockTextOrEmpty`). -/
def msgCharCount (m : CanMsg) : Nat :=
  match m.content with
  | .ofStr s => s.length
  | .blocks bs => (bs.map fun b => (blockTextOrEmpty b).length).sum

/-- Embedding of `estimateTokens` (lines 163-179):
`Math.ceil(totalChars / 4)`. -/
def estimateTokens (p : AnalyzerPayload) : Nat :=
  match p.messages with
  | none => 0
  | some msgs => ((msgs.map msgCharCount).sum + 3) / 4

/-- Embedding of `scoreTokens` (lines 184-193). -/
def scoreTokens (p : AnalyzerPayload) : Nat :=
  let tokens := estimateTokens p
  if tokens < 500 then 0
  else if tokens < 1000 then 4
  else if tokens < 2000 then 8
  else if tokens < 4000 then 12
  else if tokens < 8000 then 16
  else 20

/-- Embedding of `scoreTools` (lines 198-207). -/
def scoreTools (p : AnalyzerPayload) : Nat :=
  let toolCount := match p.tools with
    | some ts => ts.length
    | none => 0
  if toolCount = 0 then 0
  else if toolCount ≤ 3 then 4
  else if toolCount ≤ 6 then 8
  else if toolCount ≤ 10 then 12
  else if toolCount ≤ 15 then 16
  else 20

/-- Result of `scoreTaskType` (`pattern`, a log-only excerpt of the regex
source, is omitted). -/
structure TaskTypeResult where
  score : Nat
  reason : Str
deriving DecidableEq, Repr

/-- Embedding of `scoreTaskType` (lines 212-267): force-local patterns
are checked first, then force-cloud, then the ordinary task classes. -/
def scoreTaskType (content : Str) : TaskTypeResult :=
  if matchesForceLocal content then ⟨0, str "force_local"⟩
  else if matchesForceCloud content then ⟨25, str "force_cloud"⟩
  else if testGreeting content then ⟨0, str "greeting"⟩
  else if testSimpleQuestion content && !testTechnical content then
    ⟨3, str "simple_question"⟩
  else if testYesNo content then ⟨2, str "yes_no_question"⟩
  else if testEntireScope content then ⟨22, str "entire_codebase"⟩
  else if testFromScratch content then ⟨20, str "from_scratch"⟩
  else if testImplementScope content then ⟨18, str "new_implementation"⟩
  else if testRefactorScope content then ⟨16, str "refactoring"⟩
  else if testTechnical content then ⟨10, str "technical_content"⟩
  else ⟨5, str "general"⟩

/-- Result of the additive phase-2 scorers. -/
structure AdditiveScore where
  score : Nat
  reasons : List Str
deriving DecidableEq, Repr

/-- One guarded addition of the phase-2 scorers. -/
def addIf (cond : Bool) (pts : Nat) (tag : Str) (acc : AdditiveScore) :
    AdditiveScore :=
  if cond then ⟨acc.score + pts, acc.reasons ++ [tag]⟩ else acc

/-- Embedding of `scoreCodeComplexity` (lines 273-320), capped at 20. -/
def scoreCodeComplexity (content : Str) : AdditiveScore :=
  let acc := ⟨0, []⟩
  let acc := addIf (testMultiFile content) 5 (str "multi_file") acc
  let acc := addIf (testArchitecture content) 5 (str "architecture") acc
  let acc := addIf (testConcurrent content) 3 (str "concurrency") acc
  let acc := addIf (testSecurity content) 4 (str "security") acc
  let acc := addIf (testTesting content) 2 (str "testing") acc
  let acc := addIf (testPerformance content) 3 (str "performance") acc
  let acc := addIf (testDatabase content) 3 (str "database") acc
  ⟨min acc.score 20, acc.reasons⟩

/-- Embedding of `scoreReasoning` (lines 326-361), capped at 15. -/
def scoreReasoning (content : Str) : AdditiveScore :=
  let acc := ⟨0, []⟩
  let acc := addIf (testStepByStep content) 4 (str "step_by_step") acc
  let acc := addIf (testTradeoffs content) 4 (str "tradeoffs") acc
  let acc := addIf (testAnalysis content) 3 (str "analysis") acc
  let acc := addIf (testPlanning content) 3 (str "planning") acc
  let acc := addIf (testEdgeCases content) 2 (str "edge_cases") acc
  ⟨min acc.score 15, acc.reasons⟩

/-- Embedding of `getThreshold` (lines 366-378);
`config.smartToolSelection?.mode ?? 'heuristic'`. -/
def getThreshold (cfgMode : Option Str) : Nat :=
  let mode := cfgMode.getD (str "heuristic")
  if mode = str "aggressive" then 60
  else if mode = str "conservative" then 25
  else 40

/-- The analysis record returned by `analyzeComplexity` (the truncated
`content` echo is omitted). -/
structure ComplexityResult where
  score : Nat
  threshold : Nat
  mode : Str
  recommendation : Str
  tokenScore : Nat
  toolScore : Nat
  taskType : TaskTypeResult
  codeComplexity : AdditiveScore
  reasoning : AdditiveScore
  conversationBonus : Nat
deriving DecidableEq, Repr

/-- Embedding of `analyzeComplexity` (lines 386-439). -/
def analyzeComplexity (cfgMode : Option Str) (p : AnalyzerPayload) :
    ComplexityResult :=
  let content := extractContent p
  let messageCount := match p.messages with
    | some msgs => msgs.length
    | none => 0
  let tokenScore := scoreTokens p
  let toolScore := scoreTools p
  let taskTypeResult := scoreTaskType content
  let codeComplexityResult := scoreCodeComplexity content
  let reasoningResult := scoreReasoning content
  let totalScore :=
    min (tokenScore + toolScore + taskTypeResult.score +
      codeComplexityResult.score + reasoningResult.score) 100
  let conversationBonus :=
    if messageCount > 10 then 5 else if messageCount > 5 then 2 else 0
  let adjustedScore := min (totalScore + conversationBonus) 100
  let threshold := getThreshold cfgMode
  let mode := cfgMode.getD (str "heuristic")
  let recommendation :=
    if taskTypeResult.reason = str "force_local" then str "local"
    else if taskTypeResult.reason = str "force_cloud" then str "cloud"
    else if adjustedScore ≥ threshold then str "cloud"
    else str "local"
  { score := adjustedScore
    threshold := threshold
    mode := mode
    recommendation := recommendation
    tokenScore := tokenScore
    toolScore := toolScore
    taskType := taskTypeResult
    codeComplexity := codeComplexityResult
    reasoning := reasoningResult
    conversationBonus := conversationBonus }

/-! ### memory search module - `prepareFTS5Query` (lines 96-137)

The sanitizer strips XML/HTML tags, collapses whitespace, records whether
the query contains a standalone `AND`/`OR`/`NOT` (case-insensitively),
removes FTS5-reserved punctuation, doubles embedded quotes, removes any
remaining non-word characters, and - unless the operator check fired -
wraps the residue in double quotes as a phrase query. -/

/-- The double-quote character. -/
def qc : Char := Char.ofNat 34

/-- JavaScript `String.prototype.trim` (edge whitespace removal). -/
def jsTrim (s : Str) : Str :=
  ((s.dropWhile isSpaceChar).reverse.dropWhile isSpaceChar).reverse

/-- Whitespace-run collapse, `replace(/\s+/g, ' ')`: `prevSpace` records
whether the current run already emitted its single space. -/
def collapseWsGo (prevSpace : Bool) : List Char → List Char
  | [] => []
  | c :: rest =>
    if isSpaceChar c then
      if prevSpace then collapseWsGo true rest
      else ' ' :: collapseWsGo true rest
    else c :: collapseWsGo false rest

/-- `replace(/\s+/g, ' ')`. -/
def collapseWs (s : Str) : Str := collapseWsGo false s

/-- Tag removal, `replace(/<[^>]+>/g, ' ')`, as a one-pass scan: from a
`<`, the characters up to the first `>` are buffered (`buf` holds them
reversed, excluding the `<`); at that `>` the whole span is replaced by a
space if the gap is non-empty (`<>` does not match and is kept), and an
unterminated span is kept verbatim.  This is exactly the global-replace
behaviour of the regex, whose `[^>]+` cannot cross a `>`. -/
def stripTagsGo (buf : Option (List Char)) : List Char → List Char
  | [] =>
    match buf with
    | none => []
    | some acc => '<' :: acc.reverse
  | c :: rest =>
    match buf with
    | none =>
      if c = '<' then stripTagsGo (some []) rest
      else c :: stripTagsGo none rest
    | some acc =>
      if c = '>' then
        if acc.isEmpty then '<' :: '>' :: stripTagsGo none rest
        else ' ' :: stripTagsGo none rest
      else stripTagsGo (some (c :: acc)) rest

/-- Tag removal, `replace(/<[^>]+>/g, ' ')`. -/
def stripTags (s : List Char) : List Char := stripTagsGo none s

/-- Step-3 operator detection: `/\b(AND|OR|NOT)\b/i.test(cleaned)`. -/
def hasFTS5Operators (s : Str) : Bool :=
  jsSearch (mAlts [mLit (str "and"), mLit (str "or"), mLit (str "not")])
    true true s

/-- Step-4 character replacement:
`[*()<>\-:\[\]|,+=?!;\/\\@#$%^&{}]` maps to a space. -/
def step4Char (c : Char) : Char :=
  if c ∈ ['*', '(', ')', '<', '>', '-', ':', '[', ']', '|', ',', '+', '=',
      '?', '!', ';', '/', Char.ofNat 92, '@', '#', '$', '%', Char.ofNat 94,
      '&', Char.ofNat 123, Char.ofNat 125] then ' '
  else c

/-- Step-5 quote escaping: `replace(/"/g, '""')`. -/
def escapeQuotes (s : Str) : Str :=
  s.flatMap fun c => if c = qc then [qc, qc] else [c]

/-- Step-6 character replacement: `[^\w\s""]` maps to a space. -/
def step6Char (c : Char) : Char :=
  if isWordChar c || isSpaceChar c || c = qc then c else ' '

/-- Steps 1-2 of `prepareFTS5Query`: trim, strip tags, collapse
whitespace, trim. -/
def ftsCleaned2 (query : Str) : Str :=
  jsTrim (collapseWs (stripTags (jsTrim query)))

/-- Steps 4-6 of `prepareFTS5Query`: punctuation removal and collapse,
quote doubling, residual-character removal and collapse. -/
def ftsCleaned5 (c2 : Str) : Str :=
  jsTrim (collapseWs
    ((escapeQuotes (jsTrim (collapseWs (c2.map step4Char)))).map step6Char))

/-- Embedding of `prepareFTS5Query`: the all-tags fallback, then the
operator check (step 3, performed on the step-2 result) decides whether
step 7 wraps the sanitized residue in quotes as a phrase. -/
def prepareFTS5Query (query : Str) : Str :=
  let cleaned2 := ftsCleaned2 query
  if cleaned2.isEmpty then str "\"empty query\""
  else if !hasFTS5Operators cleaned2 then qc :: (ftsCleaned5 cleaned2 ++ [qc])
  else ftsCleaned5 cleaned2

/-! #### A model of the FTS5 query parser

Restricted to the alphabet the sanitizer can emit (word characters,
spaces, double quotes - plus arbitrary bareword characters), the FTS5
query language is: a non-empty sequence of phrases (quoted strings with
`""` escapes, or barewords) in which the uppercase keywords `AND`, `OR`,
`NOT` are infix operators; juxtaposed phrases are an implicit AND.  A
query is rejected when a string is unterminated, when an operator lacks a
phrase on either side, or when the query is empty.  The model was
validated against SQLite's FTS5 on the relevant inputs (`'AND'`, `'and'`,
`'""'`, `'""""'`, `'foo AND'`, `'NOT dogs'` etc. behave identically). -/

/-- A token of an FTS5 query: a (completed) quoted string or a bareword. -/
inductive FtsTok where
  | qstr : FtsTok
  | word (w : Str) : FtsTok
deriving DecidableEq, Repr

/-- Tokenizer state: outside any token, inside a bareword, inside a
string, or inside a string just after a quote (which is either an `""`
escape or the closing quote). -/
inductive TkState where
  | outside : TkState
  | inWord : TkState
  | inStr : TkState
  | strQ : TkState
deriving DecidableEq, Repr

/-- One-pass FTS5 tokenizer; `acc` holds the current bareword reversed.
Returns `none` on an unterminated string. -/
def tokRun (st : TkState) (acc : List Char) : List Char → Option (List FtsTok)
  | [] =>
    match st with
    | .outside => some []
    | .inWord => some [.word acc.reverse]
    | .inStr => none
    | .strQ => some [.qstr]
  | c :: rest =>
    match st with
    | .outside =>
      if isSpaceChar c then tokRun .outside [] rest
      else if c = qc then tokRun .inStr [] rest
      else tokRun .inWord [c] rest
    | .inWord =>
      if isSpaceChar c then
        (tokRun .outside [] rest).map (fun ts => .word acc.reverse :: ts)
      else if c = qc then
        (tokRun .inStr [] rest).map (fun ts => .word acc.reverse :: ts)
      else tokRun .inWord (c :: acc) rest
    | .inStr =>
      if c = qc then tokRun .strQ [] rest else tokRun .inStr [] rest
    | .strQ =>
      if c = qc then tokRun .inStr [] rest
      else if isSpaceChar c then
        (tokRun .outside [] rest).map (fun ts => .qstr :: ts)
      else (tokRun .inWord [c] rest).map (fun ts => .qstr :: ts)

/-- Tokenize a query. -/
def fts5Tokens (s : Str) : Option (List FtsTok) := tokRun .outside [] s

/-- Is a token one of the (uppercase-only) FTS5 operators? -/
def isOpTok : FtsTok → Bool
  | .qstr => false
  | .word w => w == str "AND" || w == str "OR" || w == str "NOT"

/-- Operator/phrase alternation check; the flag records whether a phrase
is required next (at the start and after each operator). -/
def vSeq : Bool → List FtsTok → Bool
  | true, [] => false
  | true, t :: r => !isOpTok t && vSeq false r
  | false, [] => true
  | false, t :: r => if isOpTok t then vSeq true r else vSeq false r

/-- Does the FTS5 engine parse the query without error (in the model)? -/
def fts5QueryParses (s : Str) : Bool :=
  match fts5Tokens s with
  | none => false
  | some ts => vSeq true ts

/-- Pairedness of quote runs: the inner phrase text is a concatenation of
non-quote characters and `""` pairs.  The sanitizer's phrase body always
has this shape (quotes are only introduced doubled by `escapeQuotes`). -/
inductive PairedQuotes : List Char → Prop where
  | nil : PairedQuotes []
  | chr (c : Char) (h : c ≠ qc) (l : List Char) (hl : PairedQuotes l) :
      PairedQuotes (c :: l)
  | pair (l : List Char) (hl : PairedQuotes l) :
      PairedQuotes (qc :: qc :: l)

/-! ### Claim-side definitions

Definitions written from the spec's wording (never from the JavaScript),
used to state the claims against the embedded code above. -/

/-- Claim-side per-block converse mapping, by case analysis on the block
type: a text block keeps its text, a tool_use block yields the empty
string (it has neither a `text` nor a `content` field), and a tool_result
block yields its `content` payload. -/
def bedrockPartValByCase : Block → BText
  | .text s => .s s
  | .toolUse _ _ _ => .s []
  | .toolResult _ (.plain s) => .s s
  | .toolResult _ (.parts ps) => .contentArr ps

/-- Claim-side converse-message mapping built on the by-case block value. -/
def converseMsgByCase (m : CanMsg) : ConverseMsg :=
  { role := m.role
    content :=
      match m.content with
      | .ofStr s => [.textPart (.s s)]
      | .blocks bs => bs.map fun b => .textPart (bedrockPartValByCase b) }

/-- Is a converse part a `{text}` part? -/
def isTextPartB : ConversePart → Bool
  | .textPart _ => true
  | _ => false

/-- Is a converse part a `toolUse` part? -/
def isToolUsePartB : ConversePart → Bool
  | .toolUsePart _ _ _ => true
  | _ => false

/-- Is a block a tool_use block? -/
def blockIsToolUse : Block → Bool
  | .toolUse _ _ _ => true
  | _ => false

/-- Does a canonical message contain a tool_use block? -/
def msgHasToolUseBlock (m : CanMsg) : Bool :=
  match m.content with
  | .blocks bs => bs.any blockIsToolUse
  | .ofStr _ => false

/-- A concrete canonical request whose single user message carries a
tool_use block, a tool_result block and a text block (the shape of spec
scenario 2). -/
def bedrockToolUseRequest : CanBody :=
  { model := some (str "claude-sonnet-4-5")
    system := none
    messages :=
      [⟨str "user", .blocks
        [.toolUse (str "toolu_1") (str "Read") [(str "file_path", str "/a")],
         .toolResult (str "toolu_1") (.plain (str "contents")),
         .text (str "hi")]⟩]
    maxTokens := none
    temperature := none
    topP := none
    tools := none }

/-- A concrete Bedrock configuration whose `modelId` differs from the
model requested in `bedrockToolUseRequest`. -/
def bedrockCfgExample : BedrockCfg :=
  { apiKey := some (str "key")
    modelId := str "anthropic.claude-3-5-sonnet-20241022-v2:0"
    region := str "us-east-1" }

/-- A concrete converse response used to exercise the response
conversion. -/
def converseResponseExample : ConverseResponse :=
  { outputMessageRole := str "assistant"
    outputMessageContent := [.textItem (str "Hi")]
    stopReason := some (str "end_turn")
    usageInputTokens := some 1
    usageOutputTokens := some 1 }

/-- Is an `invokeModel` outcome an error? -/
def exceptIsErr : Except JsError UpstreamResult → Bool
  | .error _ => true
  | .ok _ => false

/-- A successful upstream result used in concrete dispatch runs. -/
def upstreamOkExample : UpstreamResult := ⟨true, 200, str "body"⟩

/-- No two consecutive messages share a role. -/
def noConsecSameRole : List WireMsg → Bool
  | [] => true
  | [_] => true
  | a :: b :: rest => a.role != b.role && noConsecSameRole (b :: rest)

/-- Did `convertResponsesToChat` raise the distinguished error? -/
def convertIsError (input : RInput) : Bool :=
  match convertResponsesToChatMsgs input with
  | .error _ => true
  | .ok _ => false

/-- Claim-side flattening property of one entry: if its content is a
parts array with at least one non-empty extracted text, the cleaned
message's content is those texts joined by blank lines. -/
def flattenPropOk (e : Option REntry) : Bool :=
  match e with
  | none => true
  | some m =>
    match m.content with
    | some (.cparts ps) =>
      if (extractedTexts ps).isEmpty then true
      else
        (cleanEntry e).content
          == some (.cstr (List.intercalate (str "\n\n") (extractedTexts ps)))
    | _ => true

/-! ## Theorems -/

/-! #### Helper lemmas for the deduplication loop -/

theorem dedupLoop_ok (l : List WireMsg) : ∀ (last : Option Str),
    noConsecSameRole (dedupLoop last l) = true ∧
      ∀ f rest, dedupLoop last l = f :: rest → last ≠ some f.role := by
  induction l with
  | nil =>
    intro last
    exact ⟨rfl, by intro f rest h; cases h⟩
  | cons m l ih =>
    intro last
    by_cases h : last = some m.role
    · have e : dedupLoop last (m :: l) = dedupLoop last l := by
        simp [dedupLoop, h]
      rw [e]
      exact ih last
    · have e : dedupLoop last (m :: l) = m :: dedupLoop (some m.role) l := by
        simp [dedupLoop, h]
      rw [e]
      obtain ⟨ihn, ihh⟩ := ih (some m.role)
      refine ⟨?_, ?_⟩
      · cases hd : dedupLoop (some m.role) l with
        | nil => rfl
        | cons f rest =>
          have hne : (some m.role : Option Str) ≠ some f.role := ihh f rest hd
          have hrole : m.role ≠ f.role := fun hh => hne (by rw [hh])
          rw [hd] at ihn
          show (m.role != f.role && noConsecSameRole (f :: rest)) = true
          rw [ihn, Bool.and_true, bne_iff_ne]
          exact hrole
      · intro f rest hfr
        have hf : m = f := by injection hfr
        rw [← hf]
        exact h

theorem dedupLoop_sublist (l : List WireMsg) : ∀ (last : Option Str),
    List.Sublist (dedupLoop last l) l := by
  induction l with
  | nil => intro last; exact List.Sublist.refl []
  | cons m l ih =>
    intro last
    by_cases h : last = some m.role
    · have e : dedupLoop last (m :: l) = dedupLoop last l := by
        simp [dedupLoop, h]
      rw [e]
      exact List.Sublist.cons m (ih last)
    · have e : dedupLoop last (m :: l) = m :: dedupLoop (some m.role) l := by
        simp [dedupLoop, h]
      rw [e]
      exact List.Sublist.cons₂ m (ih (some m.role))

/-- C4: for every canonical message list sent to a local-family target
(ollama-native or llamacpp-openai), the emitted message sequence contains
no two consecutive messages with the same role; the deduplication only
drops messages (the result is a sublist of the converted sequence). -/
theorem local_targets_no_consecutive_same_role :
    ∀ (msgs : List CanMsg) (system : Option Str) (converted : List WireMsg),
      noConsecSameRole (ollamaMessages msgs) = true ∧
        List.Sublist (ollamaMessages msgs) (ollamaConvertedMessages msgs) ∧
        noConsecSameRole (llamacppMessages system converted) = true ∧
        List.Sublist (llamacppMessages system converted)
          (if strTruthy system then
            ⟨str "system", system.getD []⟩ :: converted
          else converted) := by
  intro msgs system converted
  refine ⟨(dedupLoop_ok _ none).1, dedupLoop_sublist _ none,
    (dedupLoop_ok _ none).1, ?_⟩
  unfold llamacppMessages dedupConsecutiveRoles
  by_cases h : strTruthy system = true
  · simp only [h, if_true]
    exact dedupLoop_sublist _ none
  · simp only [eq_false_of_ne_true h, if_false]
    exact dedupLoop_sublist _ none

/-- C5: a request body with `stream === true` is dispatched as a single
un-retried POST whose outcome (success or failure) surfaces to the caller
unchanged, and only non-streaming requests are wrapped in `withRetry`,
with defaults 3 attempts, 1000 ms initial delay, 30000 ms max delay. -/
theorem streaming_never_retried :
    ∀ (apiRetry : Option ApiRetryCfg) (body : ReqBody)
      (attempts : Nat → AttemptOutcome) (isFailure : AttemptOutcome → Bool),
      (isStreamingBody body = true →
        performJsonRequestPlan apiRetry body = .streamSingle ∧
          performJsonRequestRun apiRetry body attempts isFailure
            = (attempts 0, 1)) ∧
      (isStreamingBody body = false →
        performJsonRequestPlan apiRetry body =
          .retried (jsOrNum (apiRetry.bind (·.maxRetries)) 3)
            (jsOrNum (apiRetry.bind (·.initialDelay)) 1000)
            (jsOrNum (apiRetry.bind (·.maxDelay)) 30000)) := by
  intro a b att f
  constructor
  · intro h
    have hp : performJsonRequestPlan a b = .streamSingle := by
      simp [performJsonRequestPlan, h]
    refine ⟨hp, ?_⟩
    unfold performJsonRequestRun
    rw [hp]
  · intro h
    simp [performJsonRequestPlan, h]

theorem streaming_never_retried_witness :
    isStreamingBody ⟨some (.jbool true)⟩ = true ∧
      performJsonRequestPlan none ⟨some (.jbool true)⟩ = .streamSingle ∧
      performJsonRequestRun none ⟨some (.jbool true)⟩
        (fun _ => .err (str "boom")) (fun _ => true)
          = (.err (str "boom"), 1) ∧
      isStreamingBody ⟨none⟩ = false ∧
      performJsonRequestPlan none ⟨none⟩ = .retried 3 1000 30000 := by
  refine ⟨by decide, ?_, ?_, by decide, ?_⟩
  · exact ((streaming_never_retried none ⟨some (.jbool true)⟩
      (fun _ => .err (str "boom")) (fun _ => true)).1 (by decide)).1
  · exact ((streaming_never_retried none ⟨some (.jbool true)⟩
      (fun _ => .err (str "boom")) (fun _ => true)).1 (by decide)).2
  · have h := (streaming_never_retried none ⟨none⟩
      (fun _ => .err (str "boom")) (fun _ => true)).2 (by decide)
    simpa using h

/-- C2 (amended): on the Bedrock path the canonical response's `model`
field equals the provider-configured `config.bedrock.modelId`, independent
of the upstream response and of any caller-requested model; in particular
it differs from the requested model whenever that differs from the
configured id. -/
theorem bedrock_response_model_is_configured_id :
    ∀ (cfg : BedrockCfg) (now : Nat) (r : ConverseResponse) (requested : Str),
      (bedrockAnthropicResponse cfg now r).model = cfg.modelId ∧
        (requested ≠ cfg.modelId →
          (bedrockAnthropicResponse cfg now r).model ≠ requested) := by
  intro cfg now r requested
  refine ⟨rfl, ?_⟩
  intro h hc
  exact h (hc.symm.trans rfl)

theorem bedrock_response_model_witness :
    (bedrockAnthropicResponse bedrockCfgExample 0 converseResponseExample).model
        = bedrockCfgExample.modelId ∧
      (bedrockAnthropicResponse bedrockCfgExample 0 converseResponseExample).model
        ≠ str "claude-sonnet-4-5" := by
  refine ⟨(bedrock_response_model_is_configured_id bedrockCfgExample 0
    converseResponseExample (str "claude-sonnet-4-5")).1,
    (bedrock_response_model_is_configured_id bedrockCfgExample 0
      converseResponseExample (str "claude-sonnet-4-5")).2 (by decide)⟩

/-- C2 (counterexample to the claim as stated): a caller requesting
`claude-sonnet-4-5` against a Bedrock provider configured with the
Anthropic Bedrock model id receives a response whose `model` is the
configured id, not the requested model. -/
theorem bedrock_response_model_counterexample :
    bedrockToolUseRequest.model = some (str "claude-sonnet-4-5") ∧
      (bedrockAnthropicResponse bedrockCfgExample 0 converseResponseExample).model
          = str "anthropic.claude-3-5-sonnet-20241022-v2:0" ∧
      (bedrockAnthropicResponse bedrockCfgExample 0 converseResponseExample).model
          ≠ str "claude-sonnet-4-5" := by
  refine ⟨rfl, rfl, by decide⟩

/-- C3 (amended): `invokeModel` invokes the fallback provider at most
once, and only when `config.modelProvider.preferOllama` is set, the
resolved primary provider is exactly `"ollama"`, fallback is enabled, and
`options.disableFallback` is unset - the failure class of the primary's
error is not consulted. -/
theorem invokeModel_fallback_at_most_once :
    ∀ (preferOllama fallbackEnabled disableFallback : Bool)
      (initialProvider fallbackProvider : Str)
      (primary fb : Except JsError UpstreamResult),
      (invokeModelSim preferOllama fallbackEnabled disableFallback
        initialProvider fallbackProvider primary fb).2 ≤ 1 ∧
      ((invokeModelSim preferOllama fallbackEnabled disableFallback
          initialProvider fallbackProvider primary fb).2 = 1 →
        preferOllama = true ∧ initialProvider = str "ollama" ∧
          fallbackEnabled = true ∧ disableFallback = false ∧
          exceptIsErr primary = true) := by
  intro pO fE dF iP fP primary fb
  cases primary with
  | ok r =>
    exact ⟨by simp [invokeModelSim], by intro h; simp [invokeModelSim] at h⟩
  | error e =>
    by_cases hs :
        (pO && iP == str "ollama" && fE && !dF) = true
    · have h1 : pO = true := by
        simp only [Bool.and_eq_true] at hs
        exact hs.1.1.1
      have h2 : iP = str "ollama" := by
        simp only [Bool.and_eq_true, beq_iff_eq] at hs
        exact hs.1.1.2
      have h3 : fE = true := by
        simp only [Bool.and_eq_true] at hs
        exact hs.1.2
      have h4 : dF = false := by
        simp only [Bool.and_eq_true, Bool.not_eq_true'] at hs
        exact hs.2
      cases fb with
      | ok r =>
        refine ⟨?_, ?_⟩
        · simp [invokeModelSim, hs]
        · intro _
          exact ⟨h1, h2, h3, h4, rfl⟩
      | error e2 =>
        refine ⟨?_, ?_⟩
        · simp [invokeModelSim, hs]
        · intro _
          exact ⟨h1, h2, h3, h4, rfl⟩
    · have hs' : (pO && iP == str "ollama" && fE && !dF) = false :=
        eq_false_of_ne_true hs
      refine ⟨?_, ?_⟩
      · simp [invokeModelSim, hs']
      · intro h
        simp [invokeModelSim, hs'] at h

theorem invokeModel_fallback_witness :
    (invokeModelSim true true false (str "ollama") (str "openai")
        (.error ollamaEndpointMissingError) (.ok upstreamOkExample)).2 ≤ 1 ∧
      (invokeModelSim false false false (str "databricks") (str "openai")
        (.ok upstreamOkExample) (.ok upstreamOkExample)).2 ≤ 1 ∧
      (str "ollama" = str "ollama" ∧
        exceptIsErr (Except.error (α := UpstreamResult) ollamaEndpointMissingError)
          = true) := by
  refine ⟨(invokeModel_fallback_at_most_once true true false (str "ollama")
      (str "openai") (.error ollamaEndpointMissingError)
      (.ok upstreamOkExample)).1, ?_, ?_⟩
  · exact (invokeModel_fallback_at_most_once false false false
      (str "databricks") (str "openai") (.ok upstreamOkExample)
      (.ok upstreamOkExample)).1
  · refine ⟨rfl, ?_⟩
    have h := (invokeModel_fallback_at_most_once true true false
      (str "ollama") (str "openai") (.error ollamaEndpointMissingError)
      (.ok upstreamOkExample)).2 (by decide)
    exact h.2.2.2.2

/-- C3 (counterexample to the claim as stated): a missing-endpoint
configuration error - `config` class in the section-7 taxonomy, which is
not fallback-eligible - still triggers the fallback (the dispatcher never
consults the failure class; `categorizeFailure` is only recorded as the
reason, and it labels this error `service_unavailable`). -/
theorem invokeModel_fallback_counterexample :
    specFallbackEligible .configError = false ∧
      categorizeFailure ollamaEndpointMissingError = str "service_unavailable" ∧
      (invokeModelSim true true false (str "ollama") (str "openai")
        (.error ollamaEndpointMissingError) (.ok upstreamOkExample)).2 = 1 ∧
      (invokeModelSim true true false (str "ollama") (str "openai")
          (.error ollamaEndpointMissingError) (.ok upstreamOkExample)).1
        = .ok ⟨upstreamOkExample, str "openai",
            ⟨str "openai", str "fallback", some (str "service_unavailable")⟩⟩ := by
  refine ⟨rfl, by decide, by decide, by rfl⟩

/-- C8: every stored memory has `surprise_score` at least the configured
threshold (default 0.3), its importance is `min 1 (base + 0.3 * surprise)`
with the claimed per-type bases, and - for surprise scores in [0,1], the
range guaranteed by the spec for `calculateSurprise` - the importance lies
in [0,1]; candidates below the threshold are not stored. -/
theorem memory_surprise_threshold_importance :
    ∀ (cfgThresh : Option ℚ) (content : Str) (t : MemType) (s : ℚ),
      (∀ m, createMemoryWithSurprise (memorySurpriseThreshold cfgThresh)
          content t s = some m →
        0 ≤ s → s ≤ 1 →
          memorySurpriseThreshold cfgThresh ≤ m.surpriseScore ∧
          m.importance = min 1 (baseImportance t + (3 / 10) * s) ∧
          0 ≤ m.importance ∧ m.importance ≤ 1) ∧
      (s < memorySurpriseThreshold cfgThresh →
        createMemoryWithSurprise (memorySurpriseThreshold cfgThresh)
          content t s = none) := by
  intro cfgThresh content t s
  constructor
  · intro m hm h0 h1
    unfold createMemoryWithSurprise at hm
    by_cases hlt : s < memorySurpriseThreshold cfgThresh
    · rw [if_pos hlt] at hm
      cases hm
    · rw [if_neg hlt] at hm
      have hm' := Option.some.inj hm
      have hsurp : m.surpriseScore = s := by rw [← hm']
      have himp : m.importance = calculateInitialImportance t s := by rw [← hm']
      refine ⟨by rw [hsurp]; exact le_of_not_lt hlt, ?_, ?_, ?_⟩
      · rw [himp]
        unfold calculateInitialImportance
        ring_nf
      · rw [himp]
        unfold calculateInitialImportance
        refine le_min (by norm_num) ?_
        have hbase : (0 : ℚ) ≤ baseImportance t := by
          cases t <;> norm_num [baseImportance]
        have : (0 : ℚ) ≤ s * (3 / 10) := by positivity
        linarith
      · rw [himp]
        exact min_le_left _ _
  · intro hlt
    unfold createMemoryWithSurprise
    rw [if_pos hlt]

theorem memory_surprise_witness :
    memorySurpriseThreshold none ≤ (1 / 2 : ℚ) ∧
      calculateInitialImportance .decision (1 / 2) = 19 / 20 ∧
      (0 : ℚ) ≤ calculateInitialImportance .decision (1 / 2) ∧
      calculateInitialImportance .decision (1 / 2) ≤ 1 ∧
      createMemoryWithSurprise (memorySurpriseThreshold none)
        (str "Entity: foo") .entity (1 / 10) = none := by
  have hmem : createMemoryWithSurprise (memorySurpriseThreshold none)
      (str "use TypeScript for the API layer") .decision (1 / 2)
      = some ⟨str "use TypeScript for the API layer", .decision,
          calculateInitialImportance .decision (1 / 2), 1 / 2⟩ := by
    unfold createMemoryWithSurprise
    rw [if_neg (by norm_num [memorySurpriseThreshold])]
  have h := (memory_surprise_threshold_importance none
    (str "use TypeScript for the API layer") .decision (1 / 2)).1
    ⟨str "use TypeScript for the API layer", .decision,
      calculateInitialImportance .decision (1 / 2), 1 / 2⟩
    hmem (by norm_num) (by norm_num)
  have h2 := (memory_surprise_threshold_importance none
    (str "Entity: foo") .entity (1 / 10)).2 (by norm_num [memorySurpriseThreshold])
  refine ⟨h.1, ?_, h.2.2.1, h.2.2.2, h2⟩
  norm_num [calculateInitialImportance, baseImportance, min_def]

/-- C10: the finish-reason mapping handles the four mapped values and
maps ordinary unknown strings to `end_turn`, but it is not total on
strings - for an `Object.prototype` property name such as `"toString"`
the lookup returns the inherited function (truthy, not a string), which
is returned instead of `"end_turn"`, contradicting the function's own
`@returns {string}` documentation. -/
theorem mapFinishReason_proto_leak :
    mapFinishReason (str "stop") = .strVal (str "end_turn") ∧
      mapFinishReason (str "tool_calls") = .strVal (str "tool_use") ∧
      mapFinishReason (str "length") = .strVal (str "max_tokens") ∧
      mapFinishReason (str "content_filter") = .strVal (str "content_filter") ∧
      mapFinishReason (str "unknown_reason") = .strVal (str "end_turn") ∧
      mapFinishReason [] = .strVal (str "end_turn") ∧
      mapFinishReason (str "toString") = .inherited := by
  decide

/-! #### Helper lemmas for the Responses-shape shim -/

theorem keepEntry_eq_not_lacks (e : Option REntry) :
    keepEntry e = !lacksRoleOrPayload e := by
  cases e with
  | none => rfl
  | some m =>
    cases h1 : strTruthy m.role <;>
      cases h2 : rcontentTruthy m.content <;>
        cases h3 : m.toolCalls <;>
          cases h4 : strTruthy m.toolCallId <;>
            simp [keepEntry, lacksRoleOrPayload, h1, h2, h3, h4]

theorem flattenPropOk_true (e : Option REntry) : flattenPropOk e = true := by
  cases e with
  | none => rfl
  | some m =>
    cases hc : m.content with
    | none => simp [flattenPropOk, hc]
    | some rc =>
      cases rc with
      | cstr s => simp [flattenPropOk, hc]
      | cparts ps =>
        simp only [flattenPropOk, hc]
        cases hts : extractedTexts ps with
        | nil => simp
        | cons t ts =>
          have hcl : (cleanEntry (some m)).content
              = some (.cstr (List.intercalate (str "\n\n") (extractedTexts ps))) := by
            unfold cleanEntry
            simp only [hc, rcontentTruthy, if_true]
            rw [hts]
            simp
          rw [hts] at hcl
          simp [hcl]

/-- C9: in the array case of the Responses-shape shim, every entry lacking
a role or lacking all of content, tool_calls and tool_call_id is dropped;
the distinguished error is raised exactly when zero entries survive the
filter; and every surviving entry's text content-parts of type `text` or
`input_text` are flattened into a single string joined by blank lines. -/
theorem convertResponses_filter_error_flatten :
    ∀ (es : List (Option REntry)),
      ((es.filter keepEntry).all fun e => !lacksRoleOrPayload e) = true ∧
        convertIsError (.iarr es) = (es.filter keepEntry).isEmpty ∧
        (es.all flattenPropOk) = true := by
  intro es
  refine ⟨?_, ?_, ?_⟩
  · rw [List.all_eq_true]
    intro e he
    have hk : keepEntry e = true := List.of_mem_filter he
    rw [keepEntry_eq_not_lacks] at hk
    exact hk
  · unfold convertIsError convertResponsesToChatMsgs
    cases h : es.filter keepEntry with
    | nil => simp [h]
    | cons e rest => simp [h]
  · rw [List.all_eq_true]
    intro e _
    exact flattenPropOk_true e

/-! #### Helper lemmas for the Bedrock request conversion -/

theorem bedrockPartVal_byCase (b : Block) :
    bedrockPartVal b = bedrockPartValByCase b := by
  cases b with
  | text s => cases s <;> rfl
  | toolUse id name input => rfl
  | toolResult id c =>
    cases c with
    | plain s => cases s <;> rfl
    | parts ps => rfl

theorem converseMsgOf_byCase (m : CanMsg) :
    converseMsgOf m = converseMsgByCase m := by
  unfold converseMsgOf converseMsgByCase
  cases m.content with
  | ofStr s => rfl
  | blocks bs => simp [bedrockPartVal_byCase]

theorem converseMsgOf_all_text (m : CanMsg) :
    (converseMsgOf m).content.all isTextPartB = true := by
  unfold converseMsgOf
  cases m.content with
  | ofStr s => rfl
  | blocks bs => simp [isTextPartB]

/-- C1 (amended): `invokeBedrock` removes system-role messages from the
messages array; the top-level `system` field is `body.system` when truthy,
else the flattened text of the first system-role message only (further
system messages are dropped); and every content block - text, tool_use and
tool_result alike - maps to a `{text: c.text || c.content || ""}` part
(`toolUse`/`toolResult` parts are never emitted). -/
theorem bedrock_converse_request_amended :
    ∀ (stdTools : List ToolDecl) (body : CanBody),
      (converseBodyOf stdTools body).messages
          = (body.messages.filter fun m => !isSystemRole m).map converseMsgByCase ∧
        ((converseBodyOf stdTools body).messages.all fun m =>
          m.content.all isTextPartB) = true ∧
        (strTruthy body.system = true →
          (converseBodyOf stdTools body).system
            = some [.textPart (.s (body.system.getD []))]) ∧
        (∀ m ms, strTruthy body.system = false →
          body.messages.filter isSystemRole = m :: ms →
          (converseBodyOf stdTools body).system
            = some [.textPart (.s (systemFlatten m))]) ∧
        (strTruthy body.system = false →
          body.messages.filter isSystemRole = [] →
          (converseBodyOf stdTools body).system = none) := by
  intro stdTools body
  refine ⟨?_, ?_, ?_, ?_, ?_⟩
  · show (body.messages.filter fun m => !isSystemRole m).map converseMsgOf
        = (body.messages.filter fun m => !isSystemRole m).map converseMsgByCase
    simp [converseMsgOf_byCase]
  · show ((body.messages.filter fun m => !isSystemRole m).map
        converseMsgOf).all (fun m => m.content.all isTextPartB) = true
    rw [List.all_eq_true]
    intro cm hcm
    rw [List.mem_map] at hcm
    obtain ⟨m, _, hm⟩ := hcm
    rw [← hm]
    exact converseMsgOf_all_text m
  · intro h
    show (if strTruthy body.system then _ else _) = _
    rw [if_pos h]
  · intro m ms h hsys
    show (if strTruthy body.system then _ else _) = _
    rw [if_neg (by rw [h]; exact Bool.false_ne_true), hsys]
  · intro h hsys
    show (if strTruthy body.system then _ else _) = _
    rw [if_neg (by rw [h]; exact Bool.false_ne_true), hsys]

theorem bedrock_converse_request_witness :
    strTruthy (some (str "be brief")) = true ∧
      (converseBodyOf [] { bedrockToolUseRequest with
          system := some (str "be brief") }).system
        = some [.textPart (.s (str "be brief"))] ∧
      strTruthy (none : Option Str) = false ∧
      (converseBodyOf []
          { bedrockToolUseRequest with
            messages := ⟨str "system", .ofStr (str "sys one")⟩ ::
              ⟨str "system", .ofStr (str "sys two")⟩ ::
                bedrockToolUseRequest.messages }).system
        = some [.textPart (.s (str "sys one"))] ∧
      (converseBodyOf [] bedrockToolUseRequest).system = none := by
  refine ⟨by decide, ?_, by decide, ?_, ?_⟩
  · exact (bedrock_converse_request_amended []
      { bedrockToolUseRequest with system := some (str "be brief") }).2.2.1
      (by decide)
  · exact (bedrock_converse_request_amended []
      { bedrockToolUseRequest with
        messages := ⟨str "system", .ofStr (str "sys one")⟩ ::
          ⟨str "system", .ofStr (str "sys two")⟩ ::
            bedrockToolUseRequest.messages }).2.2.2.1
      ⟨str "system", .ofStr (str "sys one")⟩
      [⟨str "system", .ofStr (str "sys two")⟩] (by decide) (by decide)
  · exact (bedrock_converse_request_amended [] bedrockToolUseRequest).2.2.2.2
      (by decide) (by decide)

/-- C1 (counterexample to the claim as stated): a user message carrying a
tool_use block and a tool_result block is converted with every block
mapped to a `{text}` part - the tool_use block becomes `{text: ""}` and
the tool_result block `{text: "contents"}`; no `toolUse` or `toolResult`
part is emitted. -/
theorem bedrock_converse_request_counterexample :
    (bedrockToolUseRequest.messages.any msgHasToolUseBlock) = true ∧
      ((converseBodyOf [] bedrockToolUseRequest).messages.all fun m =>
        m.content.all fun p => !isToolUsePartB p) = true ∧
      (converseBodyOf [] bedrockToolUseRequest).messages
        = [⟨str "user",
            [.textPart (.s []), .textPart (.s (str "contents")),
             .textPart (.s (str "hi"))]⟩] := by
  refine ⟨by decide, by decide, by decide⟩

/-- C6 (amended): the analyzer's total score is at most 100 (it is a
natural number, so it lies in [0,100]); a force-local match yields
recommendation `local` regardless of score; and a force-cloud match
yields recommendation `cloud` provided no force-local pattern matches
(force-local is checked first and takes precedence). -/
theorem analyzeComplexity_score_and_force :
    ∀ (cfgMode : Option Str) (p : AnalyzerPayload),
      (analyzeComplexity cfgMode p).score ≤ 100 ∧
        (matchesForceLocal (extractContent p) = true →
          (analyzeComplexity cfgMode p).recommendation = str "local") ∧
        (matchesForceLocal (extractContent p) = false →
          matchesForceCloud (extractContent p) = true →
          (analyzeComplexity cfgMode p).recommendation = str "cloud") := by
  intro cfgMode p
  refine ⟨?_, ?_, ?_⟩
  · show min _ 100 ≤ 100
    exact Nat.min_le_right _ _
  · intro h
    have htt : scoreTaskType (extractContent p) = ⟨0, str "force_local"⟩ := by
      unfold scoreTaskType
      rw [if_pos h]
    show (if (scoreTaskType (extractContent p)).reason = str "force_local"
        then str "local" else _) = str "local"
    rw [htt]
    rw [if_pos rfl]
  · intro h1 h2
    have htt : scoreTaskType (extractContent p) = ⟨25, str "force_cloud"⟩ := by
      unfold scoreTaskType
      rw [if_neg (by rw [h1]; exact Bool.false_ne_true), if_pos h2]
    show (if (scoreTaskType (extractContent p)).reason = str "force_local"
        then str "local"
        else if (scoreTaskType (extractContent p)).reason = str "force_cloud"
        then str "cloud" else _) = str "cloud"
    rw [htt]
    rw [if_neg (by decide), if_pos rfl]

theorem analyzeComplexity_force_witness :
    (analyzeComplexity none
        ⟨some [⟨str "user", .ofStr (str "hi")⟩], none⟩).score ≤ 100 ∧
      matchesForceLocal (str "hi") = true ∧
      (analyzeComplexity none
          ⟨some [⟨str "user", .ofStr (str "hi")⟩], none⟩).recommendation
        = str "local" ∧
      matchesForceCloud (str "security audit") = true ∧
      (analyzeComplexity none
          ⟨some [⟨str "user", .ofStr (str "security audit")⟩], none⟩).recommendation
        = str "cloud" := by
  refine ⟨(analyzeComplexity_score_and_force none _).1, by decide, ?_,
    by decide, ?_⟩
  · exact (analyzeComplexity_score_and_force none
      ⟨some [⟨str "user", .ofStr (str "hi")⟩], none⟩).2.1 (by decide)
  · exact (analyzeComplexity_score_and_force none
      ⟨some [⟨str "user", .ofStr (str "security audit")⟩], none⟩).2.2
      (by decide) (by decide)

/-- C6 (counterexample to the claim as stated): the content
`"what time is it security audit"` matches a force-cloud pattern
(`security audit`) but also the prefix-anchored force-local pattern
`^what\s+(time|day|date)\s+is\s+it`, which is checked first, so the
recommendation is `local`, not `cloud`. -/
theorem analyzeComplexity_force_cloud_counterexample :
    matchesForceCloud (str "what time is it security audit") = true ∧
      matchesForceLocal (str "what time is it security audit") = true ∧
      (analyzeComplexity none
          ⟨some [⟨str "user",
            .ofStr (str "what time is it security audit")⟩], none⟩).recommendation
        = str "local" := by
  refine ⟨by decide, by decide, by decide⟩

/-! #### Helper lemmas for the FTS5 sanitizer -/

theorem pq_append {a b : List Char} (ha : PairedQuotes a)
    (hb : PairedQuotes b) : PairedQuotes (a ++ b) := by
  induction ha with
  | nil => exact hb
  | chr c hne l hl ih => exact .chr c hne _ ih
  | pair l hl ih => exact .pair _ ih

theorem pq_reverse {l : List Char} (h : PairedQuotes l) :
    PairedQuotes l.reverse := by
  induction h with
  | nil => exact .nil
  | chr c hne l hl ih =>
    rw [List.reverse_cons]
    exact pq_append ih (.chr c hne [] .nil)
  | pair l hl ih =>
    rw [List.reverse_cons, List.reverse_cons, List.append_assoc]
    exact pq_append ih (.pair [] .nil)

theorem pq_dropWhileSpace {l : List Char} (h : PairedQuotes l) :
    PairedQuotes (l.dropWhile isSpaceChar) := by
  induction h with
  | nil => exact .nil
  | chr c hne l hl ih =>
    rw [List.dropWhile_cons]
    by_cases hs : isSpaceChar c = true
    · rw [if_pos hs]
      exact ih
    · rw [if_neg hs]
      exact .chr c hne l hl
  | pair l hl ih =>
    rw [List.dropWhile_cons]
    rw [if_neg (by decide)]
    exact .pair l hl

theorem pq_jsTrim {l : List Char} (h : PairedQuotes l) :
    PairedQuotes (jsTrim l) := by
  unfold jsTrim
  exact pq_reverse (pq_dropWhileSpace (pq_reverse (pq_dropWhileSpace h)))

theorem pq_collapseWsGo {l : List Char} (h : PairedQuotes l) :
    ∀ b, PairedQuotes (collapseWsGo b l) := by
  induction h with
  | nil => intro b; exact .nil
  | chr c hne l hl ih =>
    intro b
    by_cases hs : isSpaceChar c = true
    · by_cases hb : b
      · simp only [collapseWsGo, hs, if_true, hb]
        exact ih true
      · simp only [collapseWsGo, hs, if_true, hb, if_false]
        exact .chr ' ' (by decide) _ (ih true)
    · simp only [collapseWsGo, eq_false_of_ne_true hs, if_false, Bool.false_eq_true]
      exact .chr c hne _ (ih false)
  | pair l hl ih =>
    intro b
    simp only [collapseWsGo]
    rw [if_neg (by decide), if_neg (by decide)]
    exact .pair _ (ih false)

theorem pq_collapseWs {l : List Char} (h : PairedQuotes l) :
    PairedQuotes (collapseWs l) :=
  pq_collapseWsGo h false

theorem pq_map {f : Char → Char} (hq : f qc = qc)
    (hnq : ∀ c, c ≠ qc → f c ≠ qc) {l : List Char} (h : PairedQuotes l) :
    PairedQuotes (l.map f) := by
  induction h with
  | nil => exact .nil
  | chr c hne l hl ih =>
    rw [List.map_cons]
    exact .chr (f c) (hnq c hne) _ ih
  | pair l hl ih =>
    rw [List.map_cons, List.map_cons, hq]
    exact .pair _ ih

theorem escapeQuotes_cons (c : Char) (rest : List Char) :
    escapeQuotes (c :: rest)
      = (if c = qc then [qc, qc] else [c]) ++ escapeQuotes rest := by
  unfold escapeQuotes
  rw [List.flatMap_cons]

theorem pq_escapeQuotes (s : List Char) : PairedQuotes (escapeQuotes s) := by
  induction s with
  | nil => exact .nil
  | cons c rest ih =>
    rw [escapeQuotes_cons]
    by_cases h : c = qc
    · rw [if_pos h]
      exact .pair _ ih
    · rw [if_neg h]
      exact .chr c h _ ih

theorem step6Char_qc : step6Char qc = qc := by decide

theorem step6Char_ne_qc (c : Char) (h : c ≠ qc) : step6Char c ≠ qc := by
  unfold step6Char
  by_cases hk : (isWordChar c || isSpaceChar c || c = qc) = true
  · rw [if_pos hk]
    exact h
  · rw [if_neg hk]
    decide

theorem pq_ftsCleaned5 (c2 : Str) : PairedQuotes (ftsCleaned5 c2) := by
  unfold ftsCleaned5
  exact pq_jsTrim (pq_collapseWs
    (pq_map step6Char_qc step6Char_ne_qc (pq_escapeQuotes _)))

theorem tokRun_inStr_paired {l : List Char} (h : PairedQuotes l) :
    tokRun .inStr [] (l ++ [qc]) = some [.qstr] := by
  induction h with
  | nil => rfl
  | chr c hne l hl ih =>
    simp only [List.cons_append, tokRun]
    rw [if_neg hne]
    exact ih
  | pair l hl ih =>
    simp only [List.cons_append, tokRun, if_true]
    exact ih

theorem fts5_phrase_parses {l : List Char} (h : PairedQuotes l) :
    fts5QueryParses (qc :: (l ++ [qc])) = true := by
  unfold fts5QueryParses fts5Tokens
  have step : tokRun .outside [] (qc :: (l ++ [qc]))
      = tokRun .inStr [] (l ++ [qc]) := by
    simp only [tokRun]
    rw [if_neg (by decide)]
    simp only [if_true]
  rw [step, tokRun_inStr_paired h]
  rfl

/-- C7 (amended): whenever the step-3 operator check does not fire (the
tag-stripped, whitespace-collapsed query contains no standalone
`AND`/`OR`/`NOT`), `prepareFTS5Query` returns a query the FTS5 engine
parses without error: either the constant phrase `"empty query"` or the
sanitized residue wrapped as a single phrase whose embedded quotes are
all doubled. -/
theorem prepareFTS5Query_parses_without_operators :
    ∀ (q : Str), hasFTS5Operators (ftsCleaned2 q) = false →
      fts5QueryParses (prepareFTS5Query q) = true := by
  intro q h
  simp only [prepareFTS5Query]
  by_cases he : (ftsCleaned2 q).isEmpty = true
  · rw [if_pos he]
    decide
  · rw [if_neg he, h]
    rw [if_pos (by decide)]
    exact fts5_phrase_parses (pq_ftsCleaned5 _)

theorem prepareFTS5Query_parses_witness :
    hasFTS5Operators (ftsCleaned2 (str "hello <b>world</b>! (some: stuff)"))
        = false ∧
      prepareFTS5Query (str "hello <b>world</b>! (some: stuff)")
        = qc :: (str "hello world some stuff" ++ [qc]) ∧
      fts5QueryParses
        (prepareFTS5Query (str "hello <b>world</b>! (some: stuff)")) = true := by
  refine ⟨by decide, by decide, ?_⟩
  exact prepareFTS5Query_parses_without_operators
    (str "hello <b>world</b>! (some: stuff)") (by decide)

/-- C7 (counterexample to the claim as stated): the input `"AND"` makes
the operator check fire, so the sanitized residue is returned unquoted;
the resulting query `AND` is a lone infix operator, which the FTS5 engine
rejects with a syntax error. -/
theorem prepareFTS5Query_counterexample :
    prepareFTS5Query (str "AND") = str "AND" ∧
      fts5QueryParses (prepareFTS5Query (str "AND")) = false := by
  refine ⟨by decide, by decide⟩
